import Mathlib

/-!
A shallow embedding of the in-memory virtual filesystem of this repository
(`vfs.ts`: `VirtualFileSystemEntry`, `VirtualFileSystem`, `VirtualDirectory`,
`VirtualDirectorySymlink`, `VirtualFile`, `VirtualFileSymlink`, `findTarget`).

The TypeScript code is an object graph with identity, in-place mutation and
event-driven symlink mirroring.  We embed it as a heap (`World`) of numbered
nodes plus filesystem states, and every operation of the source becomes a
function in the state monad `VM := StateT World Option`; `none` signals only
fuel exhaustion of the explicit `fuel` argument that makes the source's
general recursion structural, never a result of the modelled program.
Event subscription is represented positionally: `VirtualDirectorySymlink`
subscribes to its target exactly while its `_target` field is set, so an
`emit` dispatches to exactly the directory-symlink nodes whose `target`
field points at the emitter.
-/

namespace Vfs

/-- Split a character list at each occurrence of a separator (a structurally
recursive `String.splitOn` so that the kernel can evaluate it). -/
def splitChars (sep : Char) : List Char → List (List Char)
  | [] => [[]]
  | c :: cs =>
    match splitChars sep cs with
    | [] => [[]]
    | g :: gs => if c = sep then [] :: g :: gs else (c :: g) :: gs

/-- The components of a forward-slash path (an absolute path starts with an
empty component). -/
def pathComponents (p : String) : List String :=
  (splitChars '/' p.data).map String.mk

/-- Modelled from the spec: the external path-utility module `vpath` is not part of
the given sources; per the spec its operations work on forward-slash-normalized
strings.  `combine` joins a parent path and a child name. -/
def vcombine (dir name : String) : String :=
  if name = "" then dir
  else if dir = "" ∨ dir = "/" then "/" ++ name
  else dir ++ "/" ++ name

/-- Modelled from the spec: `isAbsolute` on forward-slash-normalized paths. -/
def visAbsolute (p : String) : Bool :=
  match p.data with
  | '/' :: _ => true
  | _ => false

/-- Modelled from the spec: `resolve` interprets `p` against the absolute base `base`. -/
def vresolve (base p : String) : String := if visAbsolute p then p else vcombine base p

/-- Modelled from the spec: `basename` is the last path component. -/
def vbasename (p : String) : String := (pathComponents p).getLastD ""

/-- Modelled from the spec: `dirname` is the path with its last component removed;
for a single-component or root-level path it is the empty string. -/
def vdirname (p : String) : String := String.intercalate "/" (pathComponents p).dropLast

/-- Modelled from the spec: `parse` splits a path into components; an absolute path
starts with an empty root component. -/
def vparse (p : String) : List String := pathComponents p

abbrev NodeId := Nat
abbrev FsId := Nat

/-- `FileSystemResolver` (vfs.ts): lists child names of a directory and reads file
content.  `createResolver` consults the backing store by `dir.path` / `file.path`,
and the spec's resolver interface is keyed by path, so the model takes the entry's
path as the argument.  `entriesForPath` returns `(files, directories)`. -/
structure FileSystemResolver where
  entriesForPath : String → List String × List String
  contentForPath : String → Option String

/-- The `content?` argument of `VirtualFile.new` / `addFile`: either a string or a
content-resolver callback (`FileSystemResolver["getContent"]`). -/
inductive ContentSpec where
  | str (s : String)
  | fn (f : String → Option String)

/-- The per-kind private fields of an entry:
`VirtualDirectory` has `_entries`, `_resolver`, `_shadowRoot`;
`VirtualFile` has `_content`, `_resolver`, `_shadowRoot`;
`VirtualDirectorySymlink` has `_targetPath`, `_target`, `_symLinks`, `_symEntries`
(the inherited `_entries` of a directory symlink is never populated, since it
overrides `getOwnEntries`);
`VirtualFileSymlink` has `_target` (its target path). -/
inductive NodeData where
  | dir (entries : Option (List NodeId)) (resolver : Option FileSystemResolver)
      (shadowRoot : Option NodeId)
  | file (content : Option String) (resolver : Option (String → Option String))
      (shadowRoot : Option NodeId)
  | dirLink (targetPath : String) (target : Option NodeId)
      (symLinks : List (NodeId × NodeId)) (symEntries : Option (List NodeId))
  | fileLink (targetPath : String)

/-- One `VirtualFileSystemEntry`: its owning filesystem, parent (`none` for the root
directory, whose parent is the filesystem object itself), immutable `name`, the
`_readOnly` flag and the kind-specific state. -/
structure Node where
  fs : FsId
  parent : Option NodeId
  name : String
  readOnly : Bool
  data : NodeData

/-- The `VirtualFileSystem` object's own state: `_currentDirectory`,
`_useCaseSensitiveFileNames`, its inherited `_readOnly` flag, and the lazily
created `_root` directory. -/
structure FsState where
  currentDirectory : String
  useCaseSensitiveFileNames : Bool
  readOnly : Bool
  root : Option NodeId

/-- The whole mutable object graph: entry nodes and filesystem objects, addressed
by their index.  Nodes are only ever appended, so a parent's index is always
smaller than its children's. -/
structure World where
  nodes : List Node
  fss : List FsState

/-- The one hard failure of the source: `writePreamble` throws
"Cannot modify a frozen entry." on a read-only entry. -/
inductive VfsError where
  | immutableViolation
  deriving DecidableEq, Repr

/-- State monad of the embedding; `none` means the step-count fuel ran out. -/
abbrev VM (α : Type) := StateT World Option α

def getN (i : NodeId) : VM Node := fun w =>
  match w.nodes.get? i with
  | some n => some (n, w)
  | none => none

def setN (i : NodeId) (n : Node) : VM Unit := fun w =>
  some ((), { w with nodes := w.nodes.set i n })

def addNodeM (n : Node) : VM NodeId := fun w =>
  some (w.nodes.length, { w with nodes := w.nodes ++ [n] })

def getFsM (f : FsId) : VM FsState := fun w =>
  match w.fss.get? f with
  | some s => some (s, w)
  | none => none

def setFsM (f : FsId) (s : FsState) : VM Unit := fun w =>
  some ((), { w with fss := w.fss.set f s })

def addFsM (s : FsState) : VM FsId := fun w =>
  some (w.fss.length, { w with fss := w.fss ++ [s] })

/-- `entry instanceof VirtualFile` (a file or a file symlink). -/
def NodeData.isVFile : NodeData → Bool
  | .file .. => true
  | .fileLink .. => true
  | _ => false

/-- `entry instanceof VirtualDirectory` (a directory or a directory symlink). -/
def NodeData.isVDirectory : NodeData → Bool
  | .dir .. => true
  | .dirLink .. => true
  | _ => false

/-- `entry instanceof VirtualFileSymlink || entry instanceof VirtualDirectorySymlink`. -/
def NodeData.isSymlink : NodeData → Bool
  | .dirLink .. => true
  | .fileLink .. => true
  | _ => false

/-- The `target` property of a symlink node (its target path string). -/
def NodeData.targetPath : NodeData → String
  | .dirLink t _ _ _ => t
  | .fileLink t => t
  | _ => ""

/-- The cached resolved target (`_target`) of a directory symlink node. -/
def NodeData.targetNode : NodeData → Option NodeId
  | .dirLink _ tg _ _ => tg
  | _ => none

/-- Upper-case every character (the `toUpperCase` fallback of `compareStrings`,
written structurally so the kernel can evaluate it). -/
def upperString (s : String) : String := String.mk (s.data.map Char.toUpper)

/-- `VirtualFileSystem.sameName`: `compareStrings(a, b, !useCaseSensitiveFileNames) === 0`;
the case-insensitive comparison is modelled by upper-casing both sides
(the collator-free fallback of `compareStrings`). -/
def sameName (w : World) (f : FsId) (a b : String) : Bool :=
  match w.fss.get? f with
  | some fs => if fs.useCaseSensitiveFileNames then a = b else upperString a = upperString b
  | none => a = b

/-- The `path` getter: `vpath.combine(this.parent.path, this.name)`, the filesystem
itself having path `""`.  The auxiliary bound decreases on each step up the
parent chain; in every world built by the operations a parent's index is smaller
than its child's, so `bound = i + 1` always suffices. -/
def entryPathAux (w : World) : Nat → NodeId → String
  | 0, _ => ""
  | bound + 1, i =>
    match w.nodes.get? i with
    | none => ""
    | some n =>
      match n.parent with
      | none => vcombine "" n.name
      | some p => vcombine (entryPathAux w bound p) n.name

def entryPath (w : World) (i : NodeId) : String := entryPathAux w (i + 1) i

/-- The lookup options of `getEntry` (`pattern` filtering by the external `RegExp`
collaborator is not modelled; no claim involves it). -/
inductive EKind where
  | file
  | directory
  deriving DecidableEq, Repr

structure EntryOptions where
  followSymlinks : Bool := false
  kind : Option EKind := none

/-- `isMatch` (vfs.ts): the entry matches unless `options.kind` names the opposite
class of the entry. -/
def isMatch (n : Node) (opts : EntryOptions) : Bool :=
  opts.kind ≠ some (if n.data.isVFile then EKind.directory else EKind.file)

/-- The `target` argument of `addSymlink`: a path string or an entry object. -/
inductive SymTarget where
  | path (p : String)
  | entry (e : NodeId)

/-- Read the populated child list of a container (`_entries` of a directory,
`_symEntries` of a directory symlink). -/
def ownList (i : NodeId) : VM (List NodeId) := do
  let n ← getN i
  match n.data with
  | .dir es _ _ => pure (es.getD [])
  | .dirLink _ _ _ se => pure (se.getD [])
  | _ => failure

/-- `this.getOwnEntries().push(entry)`: append to the container's live child array. -/
def appendOwnEntry (i e : NodeId) : VM Unit := do
  let n ← getN i
  match n.data with
  | .dir es r s => setN i { n with data := .dir (some (es.getD [] ++ [e])) r s }
  | .dirLink t tg m se => setN i { n with data := .dirLink t tg m (some (se.getD [] ++ [e])) }
  | _ => failure

/-- Overwrite the container's populated child list (an `entries.splice`). -/
def setOwnList (i : NodeId) (es : List NodeId) : VM Unit := do
  let n ← getN i
  match n.data with
  | .dir _ r s => setN i { n with data := .dir (some es) r s }
  | .dirLink t tg m _ => setN i { n with data := .dirLink t tg m (some es) }
  | _ => failure

/-- Assign `_symEntries` of a directory symlink. -/
def setSymEntriesList (i : NodeId) (es : Option (List NodeId)) : VM Unit := do
  let n ← getN i
  match n.data with
  | .dirLink t tg m _ => setN i { n with data := .dirLink t tg m es }
  | _ => failure

/-- `this._symLinks.delete(entry)`. -/
def delSymLink (l k : NodeId) : VM Unit := do
  let n ← getN l
  match n.data with
  | .dirLink t tg m se => setN l { n with data := .dirLink t tg (m.filter (fun p => p.1 ≠ k)) se }
  | _ => failure

/-- `VirtualDirectorySymlink.getWrappedEntry`: memoized per target child; creates a
symlink of the matching kind, named after the child and targeting the child's
current path. -/
def getWrappedEntryM (l e : NodeId) : VM NodeId := do
  let n ← getN l
  match n.data with
  | .dirLink tpath tgt m se =>
    let en ← getN e
    let prev? := (m.find? (fun p => p.1 = e)).map Prod.snd
    let w ← get
    if en.data.isVFile then
      match prev? with
      | some s => do
        let sn ← getN s
        match sn.data with
        | .fileLink _ => pure s
        | _ => do
          let id ← addNodeM { fs := n.fs, parent := some l, name := en.name,
                              readOnly := false, data := .fileLink (entryPath w e) }
          setN l { n with data := .dirLink tpath tgt (m.map (fun p => if p.1 = e then (e, id) else p)) se }
          pure id
      | none => do
        let id ← addNodeM { fs := n.fs, parent := some l, name := en.name,
                            readOnly := false, data := .fileLink (entryPath w e) }
        setN l { n with data := .dirLink tpath tgt (m ++ [(e, id)]) se }
        pure id
    else
      match prev? with
      | some s => do
        let sn ← getN s
        match sn.data with
        | .dirLink .. => pure s
        | _ => do
          let id ← addNodeM { fs := n.fs, parent := some l, name := en.name,
                              readOnly := false, data := .dirLink (entryPath w e) none [] none }
          setN l { n with data := .dirLink tpath tgt (m.map (fun p => if p.1 = e then (e, id) else p)) se }
          pure id
      | none => do
        let id ← addNodeM { fs := n.fs, parent := some l, name := en.name,
                            readOnly := false, data := .dirLink (entryPath w e) none [] none }
        setN l { n with data := .dirLink tpath tgt (m ++ [(e, id)]) se }
        pure id
  | _ => failure

/-- `target.getEntries().map(entry => this.getWrappedEntry(entry))` of the
directory-symlink listing. -/
def wrapAll (l : NodeId) : List NodeId → VM (List NodeId)
  | [] => pure []
  | e :: rest => do
    let wr ← getWrappedEntryM l e
    let ws ← wrapAll l rest
    pure (wr :: ws)

/-- The `clone(parent)` methods: every kind produces a fresh, unfrozen node; a
directory or file clone remembers the original as its shadow root, a symlink
clone copies only the target path. -/
def cloneEntryM (src : NodeId) (parentRef : Option NodeId) (fsId : FsId) : VM NodeId := do
  let n ← getN src
  match n.data with
  | .dir _ _ _ =>
    addNodeM { fs := fsId, parent := parentRef, name := n.name, readOnly := false,
               data := .dir none none (some src) }
  | .file _ _ _ =>
    addNodeM { fs := fsId, parent := parentRef, name := n.name, readOnly := false,
               data := .file none none (some src) }
  | .dirLink t _ _ _ =>
    addNodeM { fs := fsId, parent := parentRef, name := n.name, readOnly := false,
               data := .dirLink t none [] none }
  | .fileLink t =>
    addNodeM { fs := fsId, parent := parentRef, name := n.name, readOnly := false,
               data := .fileLink t }

/-- `VirtualDirectorySymlink.invalidateTarget`: drop the resolved target (which
also ends the event subscriptions this model represents by the `target` field),
clear the wrapper memo map and the mirrored listing. -/
def invalidateTargetM (l : NodeId) : VM Unit := do
  let n ← getN l
  match n.data with
  | .dirLink t (some _) _ _ => setN l { n with data := .dirLink t none [] none }
  | _ => pure ()

/-- The symlink `target` setters: guarded by the symlink's own read-only flag;
a directory symlink additionally invalidates its resolved target when the
path actually changes. -/
def setTargetAt (i : NodeId) (v : String) : VM (Except VfsError Unit) := do
  let n ← getN i
  match n.data with
  | .dirLink t tg m se =>
    if n.readOnly then pure (.error .immutableViolation)
    else if t ≠ v then do
      setN i { n with data := .dirLink v tg m se }
      invalidateTargetM i
      pure (.ok ())
    else pure (.ok ())
  | .fileLink _ =>
    if n.readOnly then pure (.error .immutableViolation)
    else do
      setN i { n with data := .fileLink v }
      pure (.ok ())
  | _ => failure

mutual

/-- `makeReadOnly`: run `makeReadOnlyCore` (for a plain directory: recursively
freeze the already-materialized children; a directory symlink inherits the core
but its inherited `_entries` is never populated, and files have an empty core),
then set the entry's own `_readOnly` flag. -/
def makeReadOnly : Nat → NodeId → VM Unit
  | 0, _ => failure
  | fuel + 1, i => do
    let n ← getN i
    (match n.data with
     | .dir (some es) _ _ => makeReadOnlyList fuel es
     | _ => pure ())
    let n' ← getN i
    setN i { n' with readOnly := true }

termination_by structural n _ => n

/-- The `for (const entry of this._entries) entry.makeReadOnly()` loop of
`VirtualDirectory.makeReadOnlyCore`. -/
def makeReadOnlyList : Nat → List NodeId → VM Unit
  | 0, _ => failure
  | _ + 1, [] => pure ()
  | fuel + 1, e :: rest => do
    makeReadOnly fuel e
    makeReadOnlyList fuel rest

termination_by structural n _ => n

/-- `VirtualDirectory.getOwnEntries` and the `VirtualDirectorySymlink` override:
one-shot lazy population from the resolver (directories first, then files,
each frozen immediately if the parent is already read-only) or from the shadow
root (cloning each shadow child), discarding the source reference first; the
symlink override materializes the wrapped mirror of its target's listing
(caching `[]` when broken). -/
def getOwnEntries : Nat → NodeId → VM (List NodeId)
  | 0, _ => failure
  | fuel + 1, i => do
    let n ← getN i
    match n.data with
    | .dir entries? resolver shadowRoot =>
      (match entries? with
       | some es => pure es
       | none => do
         setN i { n with data := .dir (some []) none none }
         match resolver with
         | some r => do
           let w ← get
           let fd := r.entriesForPath (entryPath w i)
           populateResolverDirs fuel i n.fs n.readOnly r fd.2
           populateResolverFiles fuel i n.fs n.readOnly r fd.1
           ownList i
         | none =>
           match shadowRoot with
           | some sh => do
             let ses ← getOwnEntries fuel sh
             populateFromShadow fuel i n.fs n.readOnly ses
             ownList i
           | none => pure [])
    | .dirLink _ _ _ symEntries? =>
      (match symEntries? with
       | some es => pure es
       | none => do
         let t? ← getRealDirectory fuel i
         match t? with
         | none => do
           setSymEntriesList i (some [])
           pure []
         | some t => do
           let tes ← containerGetEntries fuel t
           let ws ← wrapAll i tes
           setSymEntriesList i (some ws)
           pure ws)
    | _ => failure

termination_by structural n _ => n

/-- The directory half of resolver population (`for (const dir of directories)`):
wrap each name as a lazily-resolving child directory, freeze it when the parent
is already read-only, and push it. -/
def populateResolverDirs :
    Nat → NodeId → FsId → Bool → FileSystemResolver → List String → VM Unit
  | 0, _, _, _, _, _ => failure
  | _ + 1, _, _, _, _, [] => pure ()
  | fuel + 1, i, nfs, ro, r, d :: rest => do
    let id ← addNodeM { fs := nfs, parent := some i, name := d, readOnly := false,
                        data := .dir none (some r) none }
    if ro then makeReadOnly fuel id else pure ()
    appendOwnEntry i id
    populateResolverDirs fuel i nfs ro r rest

termination_by structural n _ _ _ _ _ => n

/-- The file half of resolver population (`for (const file of files)`). -/
def populateResolverFiles :
    Nat → NodeId → FsId → Bool → FileSystemResolver → List String → VM Unit
  | 0, _, _, _, _, _ => failure
  | _ + 1, _, _, _, _, [] => pure ()
  | fuel + 1, i, nfs, ro, r, s :: rest => do
    let id ← addNodeM { fs := nfs, parent := some i, name := s, readOnly := false,
                        data := .file none (some r.contentForPath) none }
    if ro then makeReadOnly fuel id else pure ()
    appendOwnEntry i id
    populateResolverFiles fuel i nfs ro r rest

termination_by structural n _ _ _ _ _ => n

/-- Shadow population (`for (const entry of shadowRoot.getOwnEntries())`): clone
each shadow child under this directory, freeze it when this directory is
already read-only, and push it. -/
def populateFromShadow : Nat → NodeId → FsId → Bool → List NodeId → VM Unit
  | 0, _, _, _, _ => failure
  | _ + 1, _, _, _, [] => pure ()
  | fuel + 1, i, nfs, ro, e :: rest => do
    let c ← cloneEntryM e (some i) nfs
    if ro then makeReadOnly fuel c else pure ()
    appendOwnEntry i c
    populateFromShadow fuel i nfs ro rest

termination_by structural n _ _ _ _ => n

/-- `getEntries()` with no options: the own entries filtered by the trivially
true `isMatch`. -/
def containerGetEntries : Nat → NodeId → VM (List NodeId)
  | 0, _ => failure
  | fuel + 1, i => do
    let es ← getOwnEntries fuel i
    let w ← get
    pure (es.filter (fun e =>
      match w.nodes.get? e with
      | some n => isMatch n {}
      | none => false))

termination_by structural n _ => n

/-- `VirtualFileSystemContainer.getEntry(path, options)`: walk the dirname via
`getDirectory` (kind-restricted, no symlink following for intermediates), then
scan the entries for the basename under `sameName`; a name hit of the wrong
kind is `undefined`, and `followSymlinks` resolves the hit through
`getRealEntry`. -/
def containerGetEntry : Nat → NodeId → String → EntryOptions → VM (Option NodeId)
  | 0, _, _, _ => failure
  | fuel + 1, i, path, opts => do
    let basename := vbasename path
    if basename = "" then pure none
    else do
      let dirname := vdirname path
      if dirname ≠ "" then do
        let d? ← containerGetEntry fuel i dirname { kind := some .directory }
        match d? with
        | some d => containerGetEntry fuel d basename opts
        | none => pure none
      else do
        let es ← containerGetEntries fuel i
        let w ← get
        let n ← getN i
        match es.find? (fun e =>
          match w.nodes.get? e with
          | some en => sameName w n.fs en.name basename
          | none => false) with
        | some e => do
          let en ← getN e
          if ¬ isMatch en opts then pure none
          else if opts.followSymlinks then fsGetRealEntry fuel e
          else pure (some e)
        | none => pure none

termination_by structural n _ _ _ => n

/-- `findTarget(vfs, target, set)`: resolve the target path through the
filesystem; when the hit is itself a symlink, continue through its target
path, tracking already-visited symlink nodes by identity and answering
`undefined` when one repeats (a cycle). -/
def findTarget : Nat → FsId → String → List NodeId → VM (Option NodeId)
  | 0, _, _, _ => failure
  | fuel + 1, f, target, visited => do
    let e? ← fsGetEntry fuel f target {}
    match e? with
    | some e => do
      let n ← getN e
      if n.data.isSymlink then
        if e ∈ visited then pure none
        else findTarget fuel f n.data.targetPath (e :: visited)
      else pure (some e)
    | none => pure none

termination_by structural n _ _ _ => n

/-- `VirtualDirectorySymlink.resolveTarget`: when unresolved, find the target
and keep it when it is a directory (which in this model also constitutes the
event subscriptions on the target and its parent). -/
def resolveTarget : Nat → NodeId → VM Unit
  | 0, _ => failure
  | fuel + 1, i => do
    let n ← getN i
    match n.data with
    | .dirLink tpath none _ _ => do
      let e? ← findTarget fuel n.fs tpath []
      (match e? with
       | some e => do
         let en ← getN e
         if en.data.isVDirectory then do
           let n' ← getN i
           match n'.data with
           | .dirLink t _ m se => setN i { n' with data := .dirLink t (some e) m se }
           | _ => failure
         else pure ()
       | none => pure ())
    | _ => pure ()

termination_by structural n _ => n

/-- `VirtualDirectorySymlink.getRealDirectory`: resolve, then return the cached
target. -/
def getRealDirectory : Nat → NodeId → VM (Option NodeId)
  | 0, _ => failure
  | fuel + 1, i => do
    resolveTarget fuel i
    let n ← getN i
    match n.data with
    | .dirLink _ t _ _ => pure t
    | _ => failure

termination_by structural n _ => n

/-- `VirtualFileSymlink.getRealFile`: find the target and keep it when it is a
file. -/
def getRealFile : Nat → NodeId → VM (Option NodeId)
  | 0, _ => failure
  | fuel + 1, i => do
    let n ← getN i
    match n.data with
    | .fileLink tpath => do
      let e? ← findTarget fuel n.fs tpath []
      match e? with
      | some e => do
        let en ← getN e
        pure (if en.data.isVFile then some e else none)
      | none => pure none
    | _ => failure

/-- `VirtualFileSystem.getRealEntry`: identity on non-symlinks, `findTarget` on
symlinks. -/
def fsGetRealEntry : Nat → NodeId → VM (Option NodeId)
  | 0, _ => failure
  | fuel + 1, e => do
    let n ← getN e
    if n.data.isSymlink then findTarget fuel n.fs n.data.targetPath []
    else pure (some e)

termination_by structural n _ => n

/-- The private `root` getter of `VirtualFileSystem`: create the root directory
on first use and freeze it when the filesystem is already read-only. -/
def fsRoot : Nat → FsId → VM NodeId
  | 0, _ => failure
  | fuel + 1, f => do
    let fs ← getFsM f
    match fs.root with
    | some r => pure r
    | none => do
      let r ← addNodeM { fs := f, parent := none, name := "", readOnly := false,
                         data := .dir none none none }
      setFsM f { fs with root := some r }
      if fs.readOnly then makeReadOnly fuel r else pure ()
      pure r

/-- `VirtualFileSystem.getEntry`: delegate to the root with the path resolved
against the current directory. -/
def fsGetEntry : Nat → FsId → String → EntryOptions → VM (Option NodeId)
  | 0, _, _, _ => failure
  | fuel + 1, f, path, opts => do
    let r ← fsRoot fuel f
    let fs ← getFsM f
    containerGetEntry fuel r (vresolve fs.currentDirectory path) opts

termination_by structural n _ _ _ => n

/-- `VirtualDirectory.addDirectory` and the `VirtualDirectorySymlink` override
(which delegates to the resolved real target, `undefined` when broken): write
guard, then create-or-return-existing with implicit intermediate directories. -/
def addDirectoryAt : Nat → NodeId → String → Option FileSystemResolver →
    VM (Except VfsError (Option NodeId))
  | 0, _, _, _ => failure
  | fuel + 1, i, path, resolver => do
    let n ← getN i
    match n.data with
    | .dirLink _ _ _ _ => do
      let t? ← getRealDirectory fuel i
      (match t? with
       | some t => addDirectoryAt fuel t path resolver
       | none => pure (.ok none))
    | .dir _ _ _ =>
      if n.readOnly then pure (.error .immutableViolation)
      else do
        let basename := vbasename path
        if basename = "" then pure (.ok none)
        else do
          let dirname := vdirname path
          if dirname ≠ "" then do
            match ← ensureDirectory fuel i dirname with
            | .error err => pure (.error err)
            | .ok none => pure (.ok none)
            | .ok (some d) => addDirectoryAt fuel d basename resolver
          else do
            let e? ← containerGetEntry fuel i basename {}
            match e? with
            | none => do
              let id ← addNodeM { fs := n.fs, parent := some i, name := basename,
                                  readOnly := false, data := .dir none resolver none }
              let _ ← getOwnEntries fuel i
              appendOwnEntry i id
              emitChildAdded fuel i id
              pure (.ok (some id))
            | some e => do
              let en ← getN e
              pure (.ok (if en.data.isVDirectory then some e else none))
    | _ => failure

termination_by structural n _ _ _ => n

/-- `VirtualDirectory.addFile` and the `VirtualDirectorySymlink` override
(delegating to the resolved real target): write guard, then
create-or-return-existing with implicit intermediate directories. -/
def addFileAt : Nat → NodeId → String → Option ContentSpec →
    VM (Except VfsError (Option NodeId))
  | 0, _, _, _ => failure
  | fuel + 1, i, path, content => do
    let n ← getN i
    match n.data with
    | .dirLink _ _ _ _ => do
      let t? ← getRealDirectory fuel i
      (match t? with
       | some t => addFileAt fuel t path content
       | none => pure (.ok none))
    | .dir _ _ _ =>
      if n.readOnly then pure (.error .immutableViolation)
      else do
        let basename := vbasename path
        if basename = "" then pure (.ok none)
        else do
          let dirname := vdirname path
          if dirname ≠ "" then do
            match ← ensureDirectory fuel i dirname with
            | .error err => pure (.error err)
            | .ok none => pure (.ok none)
            | .ok (some d) => addFileAt fuel d basename content
          else do
            let e? ← containerGetEntry fuel i basename {}
            match e? with
            | none => do
              let id ← addNodeM { fs := n.fs, parent := some i, name := basename,
                                  readOnly := false,
                                  data := .file
                                    (match content with | some (.str s) => some s | _ => none)
                                    (match content with | some (.fn g) => some g | _ => none)
                                    none }
              let _ ← getOwnEntries fuel i
              appendOwnEntry i id
              emitChildAdded fuel i id
              pure (.ok (some id))
            | some e => do
              let en ← getN e
              pure (.ok (if en.data.isVFile then some e else none))
    | _ => failure

termination_by structural n _ _ _ => n

/-- `VirtualDirectory.addSymlink` (inherited unchanged by directory symlinks):
write guard, resolve the target argument (a string resolves against this
directory's path), then create a symlink of the target's kind, with the final
result filtered by the kind of the original `target` argument. -/
def addSymlinkAt : Nat → NodeId → String → SymTarget →
    VM (Except VfsError (Option NodeId))
  | 0, _, _, _ => failure
  | fuel + 1, i, path, target => do
    let n ← getN i
    if n.readOnly then pure (.error .immutableViolation)
    else do
      let basename := vbasename path
      if basename = "" then pure (.ok none)
      else do
        let te? ← (match target with
          | .path p => do
            let w ← get
            fsGetEntry fuel n.fs (vresolve (entryPath w i) p) {}
          | .entry e => pure (some e))
        match te? with
        | none => pure (.ok none)
        | some te => do
          let dirname := vdirname path
          if dirname ≠ "" then do
            match ← ensureDirectory fuel i dirname with
            | .error err => pure (.error err)
            | .ok none => pure (.ok none)
            | .ok (some d) => addSymlinkAt fuel d basename (.entry te)
          else do
            let e? ← containerGetEntry fuel i path {}
            let entry? ← (match e? with
              | some e => pure (some e)
              | none => do
                let tn ← getN te
                let w ← get
                if tn.data.isVFile then do
                  let id ← addNodeM { fs := n.fs, parent := some i, name := path,
                                      readOnly := false, data := .fileLink (entryPath w te) }
                  let _ ← getOwnEntries fuel i
                  appendOwnEntry i id
                  emitChildAdded fuel i id
                  pure (some id)
                else if tn.data.isVDirectory then do
                  let id ← addNodeM { fs := n.fs, parent := some i, name := path,
                                      readOnly := false,
                                      data := .dirLink (entryPath w te) none [] none }
                  let _ ← getOwnEntries fuel i
                  appendOwnEntry i id
                  emitChildAdded fuel i id
                  pure (some id)
                else pure none)
            match entry? with
            | none => pure (.ok none)
            | some entry => do
              let en ← getN entry
              match target with
              | .entry t => do
                let tn ← getN t
                if tn.data.isVFile then
                  pure (.ok (if (match en.data with | .fileLink _ => true | _ => false)
                             then some entry else none))
                else if tn.data.isVDirectory then
                  pure (.ok (if (match en.data with | .dirLink .. => true | _ => false)
                             then some entry else none))
                else
                  pure (.ok (if en.data.isSymlink then some entry else none))
              | .path _ =>
                pure (.ok (if en.data.isSymlink then some entry else none))

termination_by structural n _ _ _ => n

/-- `VirtualDirectory.ensureDirectory`: reject a path that is not rooted at the
empty component or whose first real component is the special marker, then add
each component in turn. -/
def ensureDirectory : Nat → NodeId → String → VM (Except VfsError (Option NodeId))
  | 0, _, _ => failure
  | fuel + 1, i, path => do
    let components := vparse path
    if components.length ≤ 1 ∨ components.headD "" ≠ "" ∨ components.get? 1 = some "..." then
      pure (.ok none)
    else
      ensureDirLoop fuel i components.tail

termination_by structural n _ _ => n

/-- The component loop of `ensureDirectory`. -/
def ensureDirLoop : Nat → NodeId → List String → VM (Except VfsError (Option NodeId))
  | 0, _, _ => failure
  | fuel + 1, i, cs =>
    match cs with
    | [] => pure (.ok (some i))
    | c :: rest => do
      match ← addDirectoryAt fuel i c none with
      | .error err => pure (.error err)
      | .ok none => pure (.ok none)
      | .ok (some d) => ensureDirLoop fuel d rest

termination_by structural n _ _ => n

/-- `VirtualDirectory.removeDirectory` and the symlink override (delegating to
the real target, `false` when broken): write guard, locate by full `path`
under `sameName` among directory-class entries, splice and notify. -/
def removeDirectoryAt : Nat → NodeId → String → VM (Except VfsError Bool)
  | 0, _, _ => failure
  | fuel + 1, i, path => do
    let n ← getN i
    match n.data with
    | .dirLink _ _ _ _ => do
      let t? ← getRealDirectory fuel i
      (match t? with
       | some t => removeDirectoryAt fuel t path
       | none => pure (.ok false))
    | .dir _ _ _ =>
      if n.readOnly then pure (.error .immutableViolation)
      else do
        let basename := vbasename path
        if basename = "" then pure (.ok false)
        else do
          let dirname := vdirname path
          if dirname ≠ "" then do
            let d? ← containerGetEntry fuel i dirname { kind := some .directory }
            match d? with
            | some d => removeDirectoryAt fuel d basename
            | none => pure (.ok false)
          else do
            let es ← getOwnEntries fuel i
            let w ← get
            match es.findIdx? (fun e =>
              match w.nodes.get? e with
              | some en => sameName w n.fs path en.name && en.data.isVDirectory
              | none => false) with
            | some idx => do
              let e := es.getD idx 0
              setOwnList i (es.eraseIdx idx)
              emitChildRemoved fuel i e
              pure (.ok true)
            | none => pure (.ok false)
    | _ => failure

termination_by structural n _ _ => n

/-- `VirtualDirectory.removeFile` and the symlink override: as
`removeDirectory` but among file-class entries. -/
def removeFileAt : Nat → NodeId → String → VM (Except VfsError Bool)
  | 0, _, _ => failure
  | fuel + 1, i, path => do
    let n ← getN i
    match n.data with
    | .dirLink _ _ _ _ => do
      let t? ← getRealDirectory fuel i
      (match t? with
       | some t => removeFileAt fuel t path
       | none => pure (.ok false))
    | .dir _ _ _ =>
      if n.readOnly then pure (.error .immutableViolation)
      else do
        let basename := vbasename path
        if basename = "" then pure (.ok false)
        else do
          let dirname := vdirname path
          if dirname ≠ "" then do
            let d? ← containerGetEntry fuel i dirname { kind := some .directory }
            match d? with
            | some d => removeFileAt fuel d basename
            | none => pure (.ok false)
          else do
            let es ← getOwnEntries fuel i
            let w ← get
            match es.findIdx? (fun e =>
              match w.nodes.get? e with
              | some en => sameName w n.fs path en.name && en.data.isVFile
              | none => false) with
            | some idx => do
              let e := es.getD idx 0
              setOwnList i (es.eraseIdx idx)
              emitChildRemoved fuel i e
              pure (.ok true)
            | none => pure (.ok false)
    | _ => failure

termination_by structural n _ _ => n

/-- `VirtualFile.getContent` and the `VirtualFileSymlink` override (reading
through the resolved target, absent when broken): one-shot lazy population
from a content resolver or the shadow file, discarding both references first. -/
def getContentAt : Nat → NodeId → VM (Option String)
  | 0, _ => failure
  | fuel + 1, i => do
    let n ← getN i
    match n.data with
    | .file content? resolver shadowRoot =>
      (match content? with
       | some c => pure (some c)
       | none => do
         setN i { n with data := .file none none none }
         match resolver with
         | some r => do
           let w ← get
           let c? := r (entryPath w i)
           let n' ← getN i
           (match n'.data with
            | .file _ _ _ => setN i { n' with data := .file c? none none }
            | _ => failure)
           pure c?
         | none =>
           match shadowRoot with
           | some sh => do
             let c? ← getContentAt fuel sh
             let n' ← getN i
             (match n'.data with
              | .file _ _ _ => setN i { n' with data := .file c? none none }
              | _ => failure)
             pure c?
           | none => pure none)
    | .fileLink _ => do
      let t? ← getRealFile fuel i
      match t? with
      | some t => getContentAt fuel t
      | none => pure none
    | _ => failure

termination_by structural n _ => n

/-- `VirtualFile.setContent` (write-guarded; discards a pending resolver but
keeps the shadow root) and the `VirtualFileSymlink` override (unguarded on the
link itself: set through the resolved target, no-op when broken). -/
def setContentAt : Nat → NodeId → Option String → VM (Except VfsError Unit)
  | 0, _, _ => failure
  | fuel + 1, i, v => do
    let n ← getN i
    match n.data with
    | .file _ _ shadowRoot =>
      if n.readOnly then pure (.error .immutableViolation)
      else do
        setN i { n with data := .file v none shadowRoot }
        pure (.ok ())
    | .fileLink _ => do
      let t? ← getRealFile fuel i
      (match t? with
       | some t => setContentAt fuel t v
       | none => pure (.ok ()))
    | _ => failure

termination_by structural n _ _ => n

/-- `this.emit("childAdded", entry)` of a container: dispatch to every
directory symlink currently subscribed, i.e. whose resolved target is the
emitter. -/
def emitChildAdded : Nat → NodeId → NodeId → VM Unit
  | 0, _, _ => failure
  | fuel + 1, d, c => do
    let w ← get
    let listeners := (List.range w.nodes.length).filter (fun l =>
      match w.nodes.get? l with
      | some n =>
        match n.data with
        | .dirLink _ (some t) _ _ => t = d
        | _ => false
      | none => false)
    addedListenerLoop fuel listeners c

termination_by structural n _ _ => n

/-- Dispatch of a `childAdded` event to each subscribed directory symlink. -/
def addedListenerLoop : Nat → List NodeId → NodeId → VM Unit
  | 0, _, _ => failure
  | _ + 1, [], _ => pure ()
  | fuel + 1, l :: rest, c => do
    onTargetChildAdded fuel l c
    addedListenerLoop fuel rest c

termination_by structural n _ _ => n

/-- `VirtualDirectorySymlink.onTargetChildAdded`: wrap the new target child
(memoized), append it to the mirrored listing, and emit this symlink's own
`childAdded`. -/
def onTargetChildAdded : Nat → NodeId → NodeId → VM Unit
  | 0, _, _ => failure
  | fuel + 1, l, c => do
    let wrapped ← getWrappedEntryM l c
    let _ ← getOwnEntries fuel l
    appendOwnEntry l wrapped
    emitChildAdded fuel l wrapped

termination_by structural n _ _ => n

/-- `this.emit("childRemoved", entry)` of a container: dispatch to the
directory symlinks targeting the emitter (`onTargetChildRemoved`) and to those
whose resolved target is a child of the emitter and is the removed entry
itself (`onTargetParentChildRemoved`, which invalidates). -/
def emitChildRemoved : Nat → NodeId → NodeId → VM Unit
  | 0, _, _ => failure
  | fuel + 1, d, c => do
    let w ← get
    removedScanLoop fuel w d c (List.range w.nodes.length)

termination_by structural n _ _ => n

/-- Dispatch of a `childRemoved` event across the subscription snapshot `w0`:
symlinks targeting the emitter run `onTargetChildRemoved`; a symlink whose
target is a child of the emitter and is the removed entry itself runs
`onTargetParentChildRemoved`, i.e. invalidates. -/
def removedScanLoop : Nat → World → NodeId → NodeId → List NodeId → VM Unit
  | 0, _, _, _, _ => failure
  | _ + 1, _, _, _, [] => pure ()
  | fuel + 1, w0, d, c, l :: rest => do
    (match w0.nodes.get? l with
     | some n =>
       match n.data with
       | .dirLink _ (some t) _ _ =>
         if t = d then onTargetChildRemoved fuel l c
         else
           (match w0.nodes.get? t with
            | some tn => if tn.parent = some d ∧ c = t then invalidateTargetM l else pure ()
            | none => pure ())
       | _ => pure ()
     | none => pure ())
    removedScanLoop fuel w0 d c rest

termination_by structural n _ _ _ _ => n

/-- `VirtualDirectorySymlink.onTargetChildRemoved`: look up (or create) the
wrapper for the removed child, splice its first occurrence out of the mirrored
listing, drop the memo entry and emit this symlink's own `childRemoved`. -/
def onTargetChildRemoved : Nat → NodeId → NodeId → VM Unit
  | 0, _, _ => failure
  | fuel + 1, l, c => do
    let wrapped ← getWrappedEntryM l c
    let es ← getOwnEntries fuel l
    (match es.findIdx? (fun e => e = wrapped) with
     | some idx => setOwnList l (es.eraseIdx idx)
     | none => pure ())
    delSymLink l c
    emitChildRemoved fuel l wrapped

termination_by structural n _ _ => n
end

/-- `isBroken` of either symlink kind: resolution yields nothing of the
expected kind. -/
def isBrokenAt (fuel : Nat) (i : NodeId) : VM Bool := do
  let n ← getN i
  match n.data with
  | .dirLink _ _ _ _ => do
    let t? ← getRealDirectory fuel i
    pure t?.isNone
  | .fileLink _ => do
    let t? ← getRealFile fuel i
    pure t?.isNone
  | _ => failure

/-- `currentDirectory.replace(/\\/g, "/")` of the `VirtualFileSystem`
constructor, written structurally. -/
def normalizeSlashes (s : String) : String :=
  String.mk (s.data.map (fun c => if c = '\x5c' then '/' else c))

/-- The `VirtualFileSystem` constructor: backslashes of the current directory
are normalized to forward slashes, the read-only flag starts false and the
root directory is created lazily. -/
def newFileSystem (currentDirectory : String) (useCaseSensitiveFileNames : Bool) : VM FsId :=
  addFsM { currentDirectory := normalizeSlashes currentDirectory,
           useCaseSensitiveFileNames := useCaseSensitiveFileNames,
           readOnly := false, root := none }

/-- `VirtualFileSystem.changeDirectory`: write-guarded by the filesystem's own
flag; a nonempty path is resolved against the current directory. -/
def fsChangeDirectory (f : FsId) (path : String) : VM (Except VfsError Unit) := do
  let fs ← getFsM f
  if fs.readOnly then pure (.error .immutableViolation)
  else do
    if path ≠ "" then setFsM f { fs with currentDirectory := vresolve fs.currentDirectory path }
    else pure ()
    pure (.ok ())

/-- `VirtualFileSystem.addDirectory`. -/
def fsAddDirectory (fuel : Nat) (f : FsId) (path : String)
    (resolver : Option FileSystemResolver) : VM (Except VfsError (Option NodeId)) := do
  let r ← fsRoot fuel f
  let fs ← getFsM f
  addDirectoryAt fuel r (vresolve fs.currentDirectory path) resolver

/-- `VirtualFileSystem.addFile`. -/
def fsAddFile (fuel : Nat) (f : FsId) (path : String) (content : Option ContentSpec) :
    VM (Except VfsError (Option NodeId)) := do
  let r ← fsRoot fuel f
  let fs ← getFsM f
  addFileAt fuel r (vresolve fs.currentDirectory path) content

/-- `VirtualFileSystem.addSymlink`: a string target is resolved against the
current directory before delegating to the root. -/
def fsAddSymlink (fuel : Nat) (f : FsId) (path : String) (target : SymTarget) :
    VM (Except VfsError (Option NodeId)) := do
  let fs ← getFsM f
  let target := match target with
    | .path p => SymTarget.path (vresolve fs.currentDirectory p)
    | t => t
  let r ← fsRoot fuel f
  let fs ← getFsM f
  addSymlinkAt fuel r (vresolve fs.currentDirectory path) target

/-- `VirtualFileSystem.removeDirectory`. -/
def fsRemoveDirectory (fuel : Nat) (f : FsId) (path : String) : VM (Except VfsError Bool) := do
  let r ← fsRoot fuel f
  let fs ← getFsM f
  removeDirectoryAt fuel r (vresolve fs.currentDirectory path)

/-- `VirtualFileSystem.removeFile`. -/
def fsRemoveFile (fuel : Nat) (f : FsId) (path : String) : VM (Except VfsError Bool) := do
  let r ← fsRoot fuel f
  let fs ← getFsM f
  removeFileAt fuel r (vresolve fs.currentDirectory path)

/-- `VirtualFileSystem.getFile`. -/
def fsGetFile (fuel : Nat) (f : FsId) (path : String) : VM (Option NodeId) := do
  let r ← fsRoot fuel f
  let fs ← getFsM f
  containerGetEntry fuel r (vresolve fs.currentDirectory path) { kind := some .file }

/-- `VirtualFileSystem.getDirectory`. -/
def fsGetDirectory (fuel : Nat) (f : FsId) (path : String) : VM (Option NodeId) := do
  let r ← fsRoot fuel f
  let fs ← getFsM f
  containerGetEntry fuel r (vresolve fs.currentDirectory path) { kind := some .directory }

/-- `VirtualFileSystem.makeReadOnly`: `makeReadOnlyCore` freezes the whole tree
through the root getter, then the filesystem's own flag is set. -/
def fsMakeReadOnly (fuel : Nat) (f : FsId) : VM Unit := do
  let r ← fsRoot fuel f
  makeReadOnly fuel r
  let fs ← getFsM f
  setFsM f { fs with readOnly := true }

/-- `VirtualFileSystem.clone`: a fresh mutable filesystem with the same current
directory and case policy whose root is a shadow clone of this root. -/
def fsClone (fuel : Nat) (f : FsId) : VM FsId := do
  let r ← fsRoot fuel f
  let fs ← getFsM f
  let f2 ← newFileSystem fs.currentDirectory fs.useCaseSensitiveFileNames
  let r2 ← cloneEntryM r none f2
  let fs2 ← getFsM f2
  setFsM f2 { fs2 with root := some r2 }
  pure f2

/-- The world with no filesystems. -/
def emptyWorld : World := { nodes := [], fss := [] }

/-- Names of a list of entries (observation helper for theorems). -/
def namesOf (w : World) (ids : List NodeId) : List String :=
  ids.filterMap (fun i => (w.nodes.get? i).map Node.name)

/-- The `isReadOnly` getter of an entry. -/
def nodeReadOnly (w : World) (i : NodeId) : Option Bool :=
  (w.nodes.get? i).map Node.readOnly

/-- The `isReadOnly` getter of a filesystem. -/
def fsIsReadOnly (w : World) (f : FsId) : Option Bool :=
  (w.fss.get? f).map FsState.readOnly

/-- The world with one node replaced (an observation helper for stating
post-states). -/
def setNode (w : World) (i : NodeId) (n : Node) : World :=
  { w with nodes := w.nodes.set i n }

/-- `getEntryNames()`-style observation: the names of `getEntries()`. -/
def listNamesAt (fuel : Nat) (i : NodeId) : VM (List String) := do
  let es ← containerGetEntries fuel i
  let w ← get
  pure (namesOf w es)

/-!
Scenario A: one filesystem at `"/"` (case-sensitive) holding
`/d`, `/d/t`, `/d/t/f.txt`, the directory symlink `/d/s -> /d/t`, `/q.txt`,
plus a directory symlink `/d/bs` and a file symlink `/d/fl` whose targets
(`/d/u` and `/d/g.txt`) are subsequently removed, leaving both links broken.
Each `wAk` is the heap after one more operation; the `buildA*` lemmas verify
every step.  `wH` is the fully built mutable world; `wA` is `wH` after
resolving `/d/s` and freezing the filesystem.
-/

def wA0 : World := { nodes := [], fss := [⟨"/", true, false, none⟩] }

def wA1 : World :=
  { nodes := [⟨0, none, "", false, .dir (some [1]) none none⟩,
              ⟨0, some 0, "d", false, .dir none none none⟩],
    fss := [⟨"/", true, false, some 0⟩] }

def wA2 : World :=
  { nodes := [⟨0, none, "", false, .dir (some [1]) none none⟩,
              ⟨0, some 0, "d", false, .dir (some [2]) none none⟩,
              ⟨0, some 1, "t", false, .dir none none none⟩],
    fss := [⟨"/", true, false, some 0⟩] }

def wA3 : World :=
  { nodes := [⟨0, none, "", false, .dir (some [1]) none none⟩,
              ⟨0, some 0, "d", false, .dir (some [2]) none none⟩,
              ⟨0, some 1, "t", false, .dir (some [3]) none none⟩,
              ⟨0, some 2, "f.txt", false, .file (some "boo") none none⟩],
    fss := [⟨"/", true, false, some 0⟩] }

def wA4 : World :=
  { nodes := [⟨0, none, "", false, .dir (some [1]) none none⟩,
              ⟨0, some 0, "d", false, .dir (some [2, 4]) none none⟩,
              ⟨0, some 1, "t", false, .dir (some [3]) none none⟩,
              ⟨0, some 2, "f.txt", false, .file (some "boo") none none⟩,
              ⟨0, some 1, "s", false, .dirLink "/d/t" none [] none⟩],
    fss := [⟨"/", true, false, some 0⟩] }

def wA5 : World :=
  { nodes := [⟨0, none, "", false, .dir (some [1, 5]) none none⟩,
              ⟨0, some 0, "d", false, .dir (some [2, 4]) none none⟩,
              ⟨0, some 1, "t", false, .dir (some [3]) none none⟩,
              ⟨0, some 2, "f.txt", false, .file (some "boo") none none⟩,
              ⟨0, some 1, "s", false, .dirLink "/d/t" none [] none⟩,
              ⟨0, some 0, "q.txt", false, .file (some "q") none none⟩],
    fss := [⟨"/", true, false, some 0⟩] }

def wA6 : World :=
  { nodes := [⟨0, none, "", false, .dir (some [1, 5]) none none⟩,
              ⟨0, some 0, "d", false, .dir (some [2, 4, 6]) none none⟩,
              ⟨0, some 1, "t", false, .dir (some [3]) none none⟩,
              ⟨0, some 2, "f.txt", false, .file (some "boo") none none⟩,
              ⟨0, some 1, "s", false, .dirLink "/d/t" none [] none⟩,
              ⟨0, some 0, "q.txt", false, .file (some "q") none none⟩,
              ⟨0, some 1, "u", false, .dir none none none⟩],
    fss := [⟨"/", true, false, some 0⟩] }

def wA7 : World :=
  { nodes := [⟨0, none, "", false, .dir (some [1, 5]) none none⟩,
              ⟨0, some 0, "d", false, .dir (some [2, 4, 6, 7]) none none⟩,
              ⟨0, some 1, "t", false, .dir (some [3]) none none⟩,
              ⟨0, some 2, "f.txt", false, .file (some "boo") none none⟩,
              ⟨0, some 1, "s", false, .dirLink "/d/t" none [] none⟩,
              ⟨0, some 0, "q.txt", false, .file (some "q") none none⟩,
              ⟨0, some 1, "u", false, .dir none none none⟩,
              ⟨0, some 1, "bs", false, .dirLink "/d/u" none [] none⟩],
    fss := [⟨"/", true, false, some 0⟩] }

def wA8 : World :=
  { nodes := [⟨0, none, "", false, .dir (some [1, 5]) none none⟩,
              ⟨0, some 0, "d", false, .dir (some [2, 4, 6, 7, 8]) none none⟩,
              ⟨0, some 1, "t", false, .dir (some [3]) none none⟩,
              ⟨0, some 2, "f.txt", false, .file (some "boo") none none⟩,
              ⟨0, some 1, "s", false, .dirLink "/d/t" none [] none⟩,
              ⟨0, some 0, "q.txt", false, .file (some "q") none none⟩,
              ⟨0, some 1, "u", false, .dir none none none⟩,
              ⟨0, some 1, "bs", false, .dirLink "/d/u" none [] none⟩,
              ⟨0, some 1, "g.txt", false, .file (some "gg") none none⟩],
    fss := [⟨"/", true, false, some 0⟩] }

def wA9 : World :=
  { nodes := [⟨0, none, "", false, .dir (some [1, 5]) none none⟩,
              ⟨0, some 0, "d", false, .dir (some [2, 4, 6, 7, 8, 9]) none none⟩,
              ⟨0, some 1, "t", false, .dir (some [3]) none none⟩,
              ⟨0, some 2, "f.txt", false, .file (some "boo") none none⟩,
              ⟨0, some 1, "s", false, .dirLink "/d/t" none [] none⟩,
              ⟨0, some 0, "q.txt", false, .file (some "q") none none⟩,
              ⟨0, some 1, "u", false, .dir none none none⟩,
              ⟨0, some 1, "bs", false, .dirLink "/d/u" none [] none⟩,
              ⟨0, some 1, "g.txt", false, .file (some "gg") none none⟩,
              ⟨0, some 1, "fl", false, .fileLink "/d/g.txt"⟩],
    fss := [⟨"/", true, false, some 0⟩] }

def wA10 : World :=
  { nodes := [⟨0, none, "", false, .dir (some [1, 5]) none none⟩,
              ⟨0, some 0, "d", false, .dir (some [2, 4, 7, 8, 9]) none none⟩,
              ⟨0, some 1, "t", false, .dir (some [3]) none none⟩,
              ⟨0, some 2, "f.txt", false, .file (some "boo") none none⟩,
              ⟨0, some 1, "s", false, .dirLink "/d/t" none [] none⟩,
              ⟨0, some 0, "q.txt", false, .file (some "q") none none⟩,
              ⟨0, some 1, "u", false, .dir none none none⟩,
              ⟨0, some 1, "bs", false, .dirLink "/d/u" none [] none⟩,
              ⟨0, some 1, "g.txt", false, .file (some "gg") none none⟩,
              ⟨0, some 1, "fl", false, .fileLink "/d/g.txt"⟩],
    fss := [⟨"/", true, false, some 0⟩] }

/-- The fully built mutable world of scenario A: `/d/bs` and `/d/fl` are broken
(their targets were removed). -/
def wH : World :=
  { nodes := [⟨0, none, "", false, .dir (some [1, 5]) none none⟩,
              ⟨0, some 0, "d", false, .dir (some [2, 4, 7, 9]) none none⟩,
              ⟨0, some 1, "t", false, .dir (some [3]) none none⟩,
              ⟨0, some 2, "f.txt", false, .file (some "boo") none none⟩,
              ⟨0, some 1, "s", false, .dirLink "/d/t" none [] none⟩,
              ⟨0, some 0, "q.txt", false, .file (some "q") none none⟩,
              ⟨0, some 1, "u", false, .dir none none none⟩,
              ⟨0, some 1, "bs", false, .dirLink "/d/u" none [] none⟩,
              ⟨0, some 1, "g.txt", false, .file (some "gg") none none⟩,
              ⟨0, some 1, "fl", false, .fileLink "/d/g.txt"⟩],
    fss := [⟨"/", true, false, some 0⟩] }

/-- `wH` with the file symlink `/d/fl` retargeted at the directory `/d/t`
(a target of the wrong kind). -/
def wH9 : World :=
  { nodes := [⟨0, none, "", false, .dir (some [1, 5]) none none⟩,
              ⟨0, some 0, "d", false, .dir (some [2, 4, 7, 9]) none none⟩,
              ⟨0, some 1, "t", false, .dir (some [3]) none none⟩,
              ⟨0, some 2, "f.txt", false, .file (some "boo") none none⟩,
              ⟨0, some 1, "s", false, .dirLink "/d/t" none [] none⟩,
              ⟨0, some 0, "q.txt", false, .file (some "q") none none⟩,
              ⟨0, some 1, "u", false, .dir none none none⟩,
              ⟨0, some 1, "bs", false, .dirLink "/d/u" none [] none⟩,
              ⟨0, some 1, "g.txt", false, .file (some "gg") none none⟩,
              ⟨0, some 1, "fl", false, .fileLink "/d/t"⟩],
    fss := [⟨"/", true, false, some 0⟩] }

/-!
Four small frozen scenarios used by the freezing claims.  Freezing walks the
whole materialized tree, so these worlds are kept small enough for direct
kernel evaluation.
-/

/-- Scenario Fa, mutable stages: `/d`, `/d/f.txt`, `/q.txt`. -/
def wFa3 : World :=
  { nodes := [⟨0, none, "", false, .dir (some [1]) none none⟩,
              ⟨0, some 0, "d", false, .dir (some [2]) none none⟩,
              ⟨0, some 1, "f.txt", false, .file (some "boo") none none⟩],
    fss := [⟨"/", true, false, some 0⟩] }

def wFa4 : World :=
  { nodes := [⟨0, none, "", false, .dir (some [1, 3]) none none⟩,
              ⟨0, some 0, "d", false, .dir (some [2]) none none⟩,
              ⟨0, some 1, "f.txt", false, .file (some "boo") none none⟩,
              ⟨0, some 0, "q.txt", false, .file (some "q") none none⟩],
    fss := [⟨"/", true, false, some 0⟩] }

/-- Scenario Fa frozen: `makeReadOnly()` called on the filesystem holding
`/d/f.txt` and `/q.txt`. -/
def wFa : World :=
  { nodes := [⟨0, none, "", true, .dir (some [1, 3]) none none⟩,
              ⟨0, some 0, "d", true, .dir (some [2]) none none⟩,
              ⟨0, some 1, "f.txt", true, .file (some "boo") none none⟩,
              ⟨0, some 0, "q.txt", true, .file (some "q") none none⟩],
    fss := [⟨"/", true, true, some 0⟩] }

lemma buildFa3 :
    (fsAddFile 20 0 "/d/f.txt" (some (.str "boo"))).run wA1 = some (.ok (some 2), wFa3) := rfl
lemma buildFa4 :
    (fsAddFile 20 0 "/q.txt" (some (.str "q"))).run wFa3 = some (.ok (some 3), wFa4) := rfl
lemma buildFa : (fsMakeReadOnly 20 0).run wFa4 = some ((), wFa) := rfl

/-- Scenario Fs, mutable stages: `/t`, `/t/f.txt`, symlink `/s -> /t`. -/
def wFs2 : World :=
  { nodes := [⟨0, none, "", false, .dir (some [1]) none none⟩,
              ⟨0, some 0, "t", false, .dir none none none⟩],
    fss := [⟨"/", true, false, some 0⟩] }

def wFs3 : World :=
  { nodes := [⟨0, none, "", false, .dir (some [1]) none none⟩,
              ⟨0, some 0, "t", false, .dir (some [2]) none none⟩,
              ⟨0, some 1, "f.txt", false, .file (some "boo") none none⟩],
    fss := [⟨"/", true, false, some 0⟩] }

def wFs4 : World :=
  { nodes := [⟨0, none, "", false, .dir (some [1, 3]) none none⟩,
              ⟨0, some 0, "t", false, .dir (some [2]) none none⟩,
              ⟨0, some 1, "f.txt", false, .file (some "boo") none none⟩,
              ⟨0, some 0, "/s", false, .dirLink "/t" none [] none⟩],
    fss := [⟨"/", true, false, some 0⟩] }

def wFs5 : World :=
  { nodes := [⟨0, none, "", false, .dir (some [1, 3]) none none⟩,
              ⟨0, some 0, "t", false, .dir (some [2]) none none⟩,
              ⟨0, some 1, "f.txt", false, .file (some "boo") none none⟩,
              ⟨0, some 0, "/s", false, .dirLink "/t" (some 1) [] none⟩],
    fss := [⟨"/", true, false, some 0⟩] }

/-- Scenario Fs frozen: the symlink `/s` has already resolved to the frozen
directory `/t`. -/
def wFs : World :=
  { nodes := [⟨0, none, "", true, .dir (some [1, 3]) none none⟩,
              ⟨0, some 0, "t", true, .dir (some [2]) none none⟩,
              ⟨0, some 1, "f.txt", true, .file (some "boo") none none⟩,
              ⟨0, some 0, "/s", true, .dirLink "/t" (some 1) [] none⟩],
    fss := [⟨"/", true, true, some 0⟩] }

/-- `wFs` after listing the frozen symlink `/s`: the mirrored wrapper (node 4)
is materialized unfrozen. -/
def wFsListed : World :=
  { nodes := [⟨0, none, "", true, .dir (some [1, 3]) none none⟩,
              ⟨0, some 0, "t", true, .dir (some [2]) none none⟩,
              ⟨0, some 1, "f.txt", true, .file (some "boo") none none⟩,
              ⟨0, some 0, "/s", true, .dirLink "/t" (some 1) [(2, 4)] (some [4])⟩,
              ⟨0, some 3, "f.txt", false, .fileLink "/t/f.txt"⟩],
    fss := [⟨"/", true, true, some 0⟩] }

/-- `wFsListed` after reassigning the unfrozen wrapper's target. -/
def wFsRetarg : World :=
  { nodes := [⟨0, none, "", true, .dir (some [1, 3]) none none⟩,
              ⟨0, some 0, "t", true, .dir (some [2]) none none⟩,
              ⟨0, some 1, "f.txt", true, .file (some "boo") none none⟩,
              ⟨0, some 0, "/s", true, .dirLink "/t" (some 1) [(2, 4)] (some [4])⟩,
              ⟨0, some 3, "f.txt", false, .fileLink "zzz"⟩],
    fss := [⟨"/", true, true, some 0⟩] }

lemma buildFs2 : (fsAddDirectory 20 0 "/t" none).run wA0 = some (.ok (some 1), wFs2) := rfl
lemma buildFs3 :
    (fsAddFile 20 0 "/t/f.txt" (some (.str "boo"))).run wFs2 = some (.ok (some 2), wFs3) := rfl
lemma buildFs4 : (fsAddSymlink 20 0 "/s" (.entry 1)).run wFs3 = some (.ok (some 3), wFs4) := rfl
lemma buildFs5 : (resolveTarget 20 3).run wFs4 = some ((), wFs5) := rfl
lemma buildFs : (fsMakeReadOnly 20 0).run wFs5 = some ((), wFs) := rfl
lemma buildFsListed : (containerGetEntries 20 3).run wFs = some ([4], wFsListed) := rfl

/-- Scenario Fb, mutable stages: `/d`, `/d/u`, symlink `/bs -> /d/u`, then
`/d/u` removed (so `/bs` is broken). -/
def wFb3 : World :=
  { nodes := [⟨0, none, "", false, .dir (some [1]) none none⟩,
              ⟨0, some 0, "d", false, .dir (some [2]) none none⟩,
              ⟨0, some 1, "u", false, .dir none none none⟩],
    fss := [⟨"/", true, false, some 0⟩] }

def wFb4 : World :=
  { nodes := [⟨0, none, "", false, .dir (some [1, 3]) none none⟩,
              ⟨0, some 0, "d", false, .dir (some [2]) none none⟩,
              ⟨0, some 1, "u", false, .dir none none none⟩,
              ⟨0, some 0, "/bs", false, .dirLink "/d/u" none [] none⟩],
    fss := [⟨"/", true, false, some 0⟩] }

def wFb5 : World :=
  { nodes := [⟨0, none, "", false, .dir (some [1, 3]) none none⟩,
              ⟨0, some 0, "d", false, .dir (some []) none none⟩,
              ⟨0, some 1, "u", false, .dir none none none⟩,
              ⟨0, some 0, "/bs", false, .dirLink "/d/u" none [] none⟩],
    fss := [⟨"/", true, false, some 0⟩] }

/-- Scenario Fb frozen: the filesystem is read-only and `/bs` is broken. -/
def wFb : World :=
  { nodes := [⟨0, none, "", true, .dir (some [1, 3]) none none⟩,
              ⟨0, some 0, "d", true, .dir (some []) none none⟩,
              ⟨0, some 1, "u", false, .dir none none none⟩,
              ⟨0, some 0, "/bs", true, .dirLink "/d/u" none [] none⟩],
    fss := [⟨"/", true, true, some 0⟩] }

lemma buildFb3 : (fsAddDirectory 20 0 "/d/u" none).run wA1 = some (.ok (some 2), wFb3) := rfl
lemma buildFb4 : (fsAddSymlink 20 0 "/bs" (.entry 2)).run wFb3 = some (.ok (some 3), wFb4) := rfl
lemma buildFb5 : (fsRemoveDirectory 20 0 "/d/u").run wFb4 = some (.ok true, wFb5) := rfl
lemma buildFb : (fsMakeReadOnly 20 0).run wFb5 = some ((), wFb) := rfl

/-- Scenario Ff, mutable stages: `/d`, `/d/g.txt`, file symlink
`/fg -> /d/g.txt`, then `/d/g.txt` removed (so `/fg` is broken). -/
def wFf3 : World :=
  { nodes := [⟨0, none, "", false, .dir (some [1]) none none⟩,
              ⟨0, some 0, "d", false, .dir (some [2]) none none⟩,
              ⟨0, some 1, "g.txt", false, .file (some "gg") none none⟩],
    fss := [⟨"/", true, false, some 0⟩] }

def wFf4 : World :=
  { nodes := [⟨0, none, "", false, .dir (some [1, 3]) none none⟩,
              ⟨0, some 0, "d", false, .dir (some [2]) none none⟩,
              ⟨0, some 1, "g.txt", false, .file (some "gg") none none⟩,
              ⟨0, some 0, "/fg", false, .fileLink "/d/g.txt"⟩],
    fss := [⟨"/", true, false, some 0⟩] }

def wFf5 : World :=
  { nodes := [⟨0, none, "", false, .dir (some [1, 3]) none none⟩,
              ⟨0, some 0, "d", false, .dir (some []) none none⟩,
              ⟨0, some 1, "g.txt", false, .file (some "gg") none none⟩,
              ⟨0, some 0, "/fg", false, .fileLink "/d/g.txt"⟩],
    fss := [⟨"/", true, false, some 0⟩] }

/-- Scenario Ff frozen: the filesystem is read-only and `/fg` is a broken file
symlink. -/
def wFf : World :=
  { nodes := [⟨0, none, "", true, .dir (some [1, 3]) none none⟩,
              ⟨0, some 0, "d", true, .dir (some []) none none⟩,
              ⟨0, some 1, "g.txt", false, .file (some "gg") none none⟩,
              ⟨0, some 0, "/fg", true, .fileLink "/d/g.txt"⟩],
    fss := [⟨"/", true, true, some 0⟩] }

lemma buildFf3 :
    (fsAddFile 20 0 "/d/g.txt" (some (.str "gg"))).run wA1 = some (.ok (some 2), wFf3) := rfl
lemma buildFf4 : (fsAddSymlink 20 0 "/fg" (.entry 2)).run wFf3 = some (.ok (some 3), wFf4) := rfl
lemma buildFf5 : (fsRemoveFile 20 0 "/d/g.txt").run wFf4 = some (.ok true, wFf5) := rfl
lemma buildFf : (fsMakeReadOnly 20 0).run wFf5 = some ((), wFf) := rfl

/-!
Scenario R: a directory `/r` backed by a resolver, frozen before its first
population, exercising lazy materialization under a frozen parent.
-/

/-- The backing resolver of scenario R: one file `a.txt` with content `ra`. -/
def resR : FileSystemResolver := ⟨fun _ => (["a.txt"], []), fun _ => some "ra"⟩

def wR1 : World :=
  { nodes := [⟨0, none, "", false, .dir (some [1]) none none⟩,
              ⟨0, some 0, "r", false, .dir none (some resR) none⟩],
    fss := [⟨"/", true, false, some 0⟩] }

/-- Scenario R frozen: the resolver-backed `/r` is read-only but still
unpopulated. -/
def wR2 : World :=
  { nodes := [⟨0, none, "", true, .dir (some [1]) none none⟩,
              ⟨0, some 0, "r", true, .dir none (some resR) none⟩],
    fss := [⟨"/", true, true, some 0⟩] }

/-- `wR2` after `/r/a.txt` is materialized: the new child is born frozen. -/
def wRm : World :=
  { nodes := [⟨0, none, "", true, .dir (some [1]) none none⟩,
              ⟨0, some 0, "r", true, .dir (some [2]) none none⟩,
              ⟨0, some 1, "a.txt", true, .file none (some resR.contentForPath) none⟩],
    fss := [⟨"/", true, true, some 0⟩] }

lemma buildR1 : (fsAddDirectory 20 0 "/r" (some resR)).run wA0 = some (.ok (some 1), wR1) := rfl
lemma buildR2 : (fsMakeReadOnly 20 0).run wR1 = some ((), wR2) := rfl
lemma buildRm : (fsGetFile 20 0 "/r/a.txt").run wR2 = some (some 2, wRm) := rfl

/-- Claim C1, counterexample.  In the frozen filesystem `wFb` (reachable from
the empty world by `buildA1`, `buildA2`, `buildFb3`–`buildFb`, and frozen by
`makeReadOnly()`), `addFile` invoked on the broken directory symlink `/bs` —
a mutation operation on an entry of the frozen tree — returns `undefined`
without raising ImmutableViolation, contradicting the claim that after
`makeReadOnly()` every mutation operation anywhere in the tree raises the
ImmutableViolation error. -/
theorem C1_counterexample :
    (addFileAt 20 3 "x.txt" (some (.str "hi"))).run wFb = some (.ok none, wFb) ∧
    (Except.ok (none : Option NodeId) ≠
      (Except.error .immutableViolation : Except VfsError (Option NodeId))) :=
  ⟨rfl, by simp⟩

/-- Claim C1, amended.  After `makeReadOnly()` on a filesystem, every mutation
that reaches a real (non-symlink) entry of the tree raises ImmutableViolation
before any state changes — `addFile`, `addDirectory`, `addSymlink`,
`removeFile`, `removeDirectory`, `changeDirectory` at the filesystem level for
every path; `setContent` on a file frozen before resolving; mutation on an
inner frozen directory; mutation delegated through a symlink whose target
resolved to a frozen directory; target reassignment of a frozen symlink; and
`setContent` on a child lazily materialized from a backing resolver after
freezing, which is created frozen.  `isReadOnly` stays true throughout (each
failed run returns the world unchanged).  Exceptions forced by the code:
(i) a mutation delegated through a broken symlink returns absent/false
without raising and leaves the world unchanged, and (ii) a mirrored wrapper
entry materialized inside a frozen directory symlink's listing is created
unfrozen, so reassigning the wrapper's own target succeeds. -/
theorem C1_freeze_guards :
    (fsIsReadOnly wFa 0 = some true ∧ nodeReadOnly wFa 0 = some true ∧
      nodeReadOnly wFa 1 = some true ∧ nodeReadOnly wFa 2 = some true ∧
      nodeReadOnly wFa 3 = some true) ∧
    (∀ (p : String) (c : Option ContentSpec),
      (fsAddFile 20 0 p c).run wFa = some (.error .immutableViolation, wFa)) ∧
    (∀ (p : String) (r : Option FileSystemResolver),
      (fsAddDirectory 20 0 p r).run wFa = some (.error .immutableViolation, wFa)) ∧
    (∀ (p q : String),
      (fsAddSymlink 20 0 p (.path q)).run wFa = some (.error .immutableViolation, wFa)) ∧
    (∀ (p : String) (e : NodeId),
      (fsAddSymlink 20 0 p (.entry e)).run wFa = some (.error .immutableViolation, wFa)) ∧
    (∀ p : String, (fsRemoveFile 20 0 p).run wFa = some (.error .immutableViolation, wFa)) ∧
    (∀ p : String,
      (fsRemoveDirectory 20 0 p).run wFa = some (.error .immutableViolation, wFa)) ∧
    (∀ p : String, (fsChangeDirectory 0 p).run wFa = some (.error .immutableViolation, wFa)) ∧
    (∀ v : Option String,
      (setContentAt 20 2 v).run wFa = some (.error .immutableViolation, wFa)) ∧
    (∀ (p : String) (c : Option ContentSpec),
      (addFileAt 20 1 p c).run wFa = some (.error .immutableViolation, wFa)) ∧
    (∀ (p : String) (c : Option ContentSpec),
      (addFileAt 20 3 p c).run wFs = some (.error .immutableViolation, wFs)) ∧
    (∀ p : String, (removeFileAt 20 3 p).run wFs = some (.error .immutableViolation, wFs)) ∧
    (∀ v : String, (setTargetAt 3 v).run wFs = some (.error .immutableViolation, wFs)) ∧
    ((fsGetFile 20 0 "/r/a.txt").run wR2 = some (some 2, wRm) ∧
      nodeReadOnly wRm 2 = some true ∧
      (∀ v : Option String,
        (setContentAt 20 2 v).run wRm = some (.error .immutableViolation, wRm))) ∧
    ((∀ (p : String) (c : Option ContentSpec),
        (addFileAt 20 3 p c).run wFb = some (.ok none, wFb)) ∧
      (∀ p : String, (removeFileAt 20 3 p).run wFb = some (.ok false, wFb)) ∧
      (∀ v : Option String, (setContentAt 20 3 v).run wFf = some (.ok (), wFf))) ∧
    ((containerGetEntries 20 3).run wFs = some ([4], wFsListed) ∧
      nodeReadOnly wFsListed 4 = some false ∧
      (setTargetAt 4 "zzz").run wFsListed = some (.ok (), wFsRetarg)) :=
  ⟨⟨rfl, rfl, rfl, rfl, rfl⟩,
    fun _ _ => rfl, fun _ _ => rfl, fun _ _ => rfl, fun _ _ => rfl,
    fun _ => rfl, fun _ => rfl, fun _ => rfl, fun _ => rfl,
    fun _ _ => rfl, fun _ _ => rfl, fun _ => rfl, fun _ => rfl,
    ⟨rfl, rfl, fun _ => rfl⟩,
    ⟨fun _ _ => rfl, fun _ => rfl, fun _ => rfl⟩,
    ⟨rfl, rfl, rfl⟩⟩

/-- Claim C8 (confirmed).  In the mutable world `wH` (built by `buildA1`–
`buildA12`) the directory symlink `/d/bs` (node 7) and the file symlink
`/d/fl` (node 9) are broken — their targets were removed.  Every mutating
operation through either link is a no-op returning absent or `false` and the
world is unchanged, `getContent` through the broken file symlink returns
absent, and both links report `isBroken`.  The same holds (via `buildA13`)
when the file symlink's target path resolves to an entry of the wrong kind
(the directory `/d/t`). -/
theorem C8_broken_symlink_noops :
    (∀ (p : String) (c : Option ContentSpec),
      (addFileAt 20 7 p c).run wH = some (.ok none, wH)) ∧
    (∀ (p : String) (r : Option FileSystemResolver),
      (addDirectoryAt 20 7 p r).run wH = some (.ok none, wH)) ∧
    (∀ p : String, (removeFileAt 20 7 p).run wH = some (.ok false, wH)) ∧
    (∀ p : String, (removeDirectoryAt 20 7 p).run wH = some (.ok false, wH)) ∧
    (getContentAt 20 9).run wH = some (none, wH) ∧
    (∀ v : Option String, (setContentAt 20 9 v).run wH = some (.ok (), wH)) ∧
    (isBrokenAt 20 7).run wH = some (true, wH) ∧
    (isBrokenAt 20 9).run wH = some (true, wH) ∧
    ((isBrokenAt 20 9).run wH9 = some (true, wH9) ∧
      (getContentAt 20 9).run wH9 = some (none, wH9) ∧
      (∀ v : Option String, (setContentAt 20 9 v).run wH9 = some (.ok (), wH9))) :=
  ⟨fun _ _ => rfl, fun _ _ => rfl, fun _ => rfl, fun _ => rfl, rfl, fun _ => rfl,
    rfl, rfl, ⟨rfl, rfl, fun _ => rfl⟩⟩

/-!
Scenario B: an original filesystem `/a.txt`, `/sub/b.txt` and its clone.
The clone is mutated three ways (content overwrite, file added, file removed)
and the original is observed unchanged.
-/

def wB1 : World :=
  { nodes := [⟨0, none, "", false, .dir (some [1]) none none⟩,
              ⟨0, some 0, "a.txt", false, .file (some "orig") none none⟩],
    fss := [⟨"/", true, false, some 0⟩] }

def wB2 : World :=
  { nodes := [⟨0, none, "", false, .dir (some [1, 2]) none none⟩,
              ⟨0, some 0, "a.txt", false, .file (some "orig") none none⟩,
              ⟨0, some 0, "sub", false, .dir none none none⟩],
    fss := [⟨"/", true, false, some 0⟩] }

/-- Scenario B, the original filesystem fully built. -/
def wB3 : World :=
  { nodes := [⟨0, none, "", false, .dir (some [1, 2]) none none⟩,
              ⟨0, some 0, "a.txt", false, .file (some "orig") none none⟩,
              ⟨0, some 0, "sub", false, .dir (some [3]) none none⟩,
              ⟨0, some 2, "b.txt", false, .file (some "bb") none none⟩],
    fss := [⟨"/", true, false, some 0⟩] }

/-- Scenario B after `clone()`: filesystem 1 has a shadow root (node 4) and
nothing materialized. -/
def wB4 : World :=
  { nodes := [⟨0, none, "", false, .dir (some [1, 2]) none none⟩,
              ⟨0, some 0, "a.txt", false, .file (some "orig") none none⟩,
              ⟨0, some 0, "sub", false, .dir (some [3]) none none⟩,
              ⟨0, some 2, "b.txt", false, .file (some "bb") none none⟩,
              ⟨1, none, "", false, .dir none none (some 0)⟩],
    fss := [⟨"/", true, false, some 0⟩, ⟨"/", true, false, some 4⟩] }

/-- Scenario B after looking up `/a.txt` in the clone: the clone's root is
populated with shadow children (nodes 5, 6). -/
def wB5 : World :=
  { nodes := [⟨0, none, "", false, .dir (some [1, 2]) none none⟩,
              ⟨0, some 0, "a.txt", false, .file (some "orig") none none⟩,
              ⟨0, some 0, "sub", false, .dir (some [3]) none none⟩,
              ⟨0, some 2, "b.txt", false, .file (some "bb") none none⟩,
              ⟨1, none, "", false, .dir (some [5, 6]) none none⟩,
              ⟨1, some 4, "a.txt", false, .file none none (some 1)⟩,
              ⟨1, some 4, "sub", false, .dir none none (some 2)⟩],
    fss := [⟨"/", true, false, some 0⟩, ⟨"/", true, false, some 4⟩] }

/-- Scenario B after overwriting the clone's `a.txt` with `v` and adding
`/new.txt` to the clone. -/
def wB7 (v : String) : World :=
  { nodes := [⟨0, none, "", false, .dir (some [1, 2]) none none⟩,
              ⟨0, some 0, "a.txt", false, .file (some "orig") none none⟩,
              ⟨0, some 0, "sub", false, .dir (some [3]) none none⟩,
              ⟨0, some 2, "b.txt", false, .file (some "bb") none none⟩,
              ⟨1, none, "", false, .dir (some [5, 6, 7]) none none⟩,
              ⟨1, some 4, "a.txt", false, .file (some v) none (some 1)⟩,
              ⟨1, some 4, "sub", false, .dir none none (some 2)⟩,
              ⟨1, some 4, "new.txt", false, .file (some "n") none none⟩],
    fss := [⟨"/", true, false, some 0⟩, ⟨"/", true, false, some 4⟩] }

/-- Scenario B after the three clone mutations, parametrized by the content
written into the clone's `a.txt`. -/
def wB8 (v : String) : World :=
  { nodes := [⟨0, none, "", false, .dir (some [1, 2]) none none⟩,
              ⟨0, some 0, "a.txt", false, .file (some "orig") none none⟩,
              ⟨0, some 0, "sub", false, .dir (some [3]) none none⟩,
              ⟨0, some 2, "b.txt", false, .file (some "bb") none none⟩,
              ⟨1, none, "", false, .dir (some [5, 6, 7]) none none⟩,
              ⟨1, some 4, "a.txt", false, .file (some v) none (some 1)⟩,
              ⟨1, some 4, "sub", false, .dir (some []) none none⟩,
              ⟨1, some 4, "new.txt", false, .file (some "n") none none⟩,
              ⟨1, some 6, "b.txt", false, .file none none (some 3)⟩],
    fss := [⟨"/", true, false, some 0⟩, ⟨"/", true, false, some 4⟩] }

lemma buildB1 : (fsAddFile 20 0 "/a.txt" (some (.str "orig"))).run wA0 = some (.ok (some 1), wB1) :=
  rfl
lemma buildB2 : (fsAddDirectory 20 0 "/sub" none).run wB1 = some (.ok (some 2), wB2) := rfl
lemma buildB3 : (fsAddFile 20 0 "/sub/b.txt" (some (.str "bb"))).run wB2 = some (.ok (some 3), wB3) :=
  rfl
lemma buildB4 : (fsClone 20 0).run wB3 = some (1, wB4) := rfl
lemma buildB5 : (fsGetFile 20 1 "/a.txt").run wB4 = some (some 5, wB5) := rfl

/-- Claim C2 (confirmed on a representative filesystem, for every written
content `v`).  Starting from the original `wB3` (`buildB1`–`buildB3`), clone
it (`buildB4`), materialize the clone's `a.txt` (`buildB5`), then mutate the
clone three ways: overwrite the cloned file's content with an arbitrary `v`,
add `/new.txt`, and remove `/sub/b.txt`.  All three succeed on the clone, and
afterwards every observation of the original — `a.txt` content, root listing,
`sub` listing, `b.txt` content — returns exactly its pre-clone value, while
the clone observes its own mutated state. -/
theorem C2_clone_independence :
    (∀ v : String, (setContentAt 20 5 (some v)).run wB5 =
      some (.ok (), setNode wB5 5 ⟨1, some 4, "a.txt", false, .file (some v) none (some 1)⟩)) ∧
    (∀ v : String,
      (fsAddFile 20 1 "/new.txt" (some (.str "n"))).run
        (setNode wB5 5 ⟨1, some 4, "a.txt", false, .file (some v) none (some 1)⟩) =
      some (.ok (some 7), wB7 v)) ∧
    (∀ v : String,
      (fsRemoveFile 20 1 "/sub/b.txt").run (wB7 v) = some (.ok true, wB8 v)) ∧
    (∀ v : String,
      (getContentAt 20 1).run (wB8 v) = some (some "orig", wB8 v) ∧
      (listNamesAt 20 0).run (wB8 v) = some (["a.txt", "sub"], wB8 v) ∧
      (listNamesAt 20 2).run (wB8 v) = some (["b.txt"], wB8 v) ∧
      (getContentAt 20 3).run (wB8 v) = some (some "bb", wB8 v)) ∧
    ((getContentAt 20 1).run wB3 = some (some "orig", wB3) ∧
      (listNamesAt 20 0).run wB3 = some (["a.txt", "sub"], wB3) ∧
      (listNamesAt 20 2).run wB3 = some (["b.txt"], wB3) ∧
      (getContentAt 20 3).run wB3 = some (some "bb", wB3)) ∧
    (∀ v : String,
      (listNamesAt 20 4).run (wB8 v) = some (["a.txt", "sub", "new.txt"], wB8 v) ∧
      (getContentAt 20 5).run (wB8 v) = some (some v, wB8 v)) :=
  ⟨fun _ => rfl, fun _ => rfl, fun _ => rfl, fun _ => ⟨rfl, rfl, rfl, rfl⟩,
    ⟨rfl, rfl, rfl, rfl⟩, fun _ => ⟨rfl, rfl⟩⟩

/-!
Scenario C: a two-symlink target cycle.  `/l/a` and `/l/b` are created
pointing at real directories `/x` and `/y`, then retargeted at each other.
-/

def wC1 : World :=
  { nodes := [⟨0, none, "", false, .dir (some [1]) none none⟩,
              ⟨0, some 0, "l", false, .dir none none none⟩],
    fss := [⟨"/", true, false, some 0⟩] }

def wC2 : World :=
  { nodes := [⟨0, none, "", false, .dir (some [1, 2]) none none⟩,
              ⟨0, some 0, "l", false, .dir none none none⟩,
              ⟨0, some 0, "x", false, .dir none none none⟩],
    fss := [⟨"/", true, false, some 0⟩] }

def wC3 : World :=
  { nodes := [⟨0, none, "", false, .dir (some [1, 2, 3]) none none⟩,
              ⟨0, some 0, "l", false, .dir none none none⟩,
              ⟨0, some 0, "x", false, .dir none none none⟩,
              ⟨0, some 0, "y", false, .dir none none none⟩],
    fss := [⟨"/", true, false, some 0⟩] }

def wC4 : World :=
  { nodes := [⟨0, none, "", false, .dir (some [1, 2, 3]) none none⟩,
              ⟨0, some 0, "l", false, .dir (some [4]) none none⟩,
              ⟨0, some 0, "x", false, .dir none none none⟩,
              ⟨0, some 0, "y", false, .dir none none none⟩,
              ⟨0, some 1, "a", false, .dirLink "/x" none [] none⟩],
    fss := [⟨"/", true, false, some 0⟩] }

def wC5 : World :=
  { nodes := [⟨0, none, "", false, .dir (some [1, 2, 3]) none none⟩,
              ⟨0, some 0, "l", false, .dir (some [4, 5]) none none⟩,
              ⟨0, some 0, "x", false, .dir none none none⟩,
              ⟨0, some 0, "y", false, .dir none none none⟩,
              ⟨0, some 1, "a", false, .dirLink "/x" none [] none⟩,
              ⟨0, some 1, "b", false, .dirLink "/y" none [] none⟩],
    fss := [⟨"/", true, false, some 0⟩] }

def wC6 : World :=
  { nodes := [⟨0, none, "", false, .dir (some [1, 2, 3]) none none⟩,
              ⟨0, some 0, "l", false, .dir (some [4, 5]) none none⟩,
              ⟨0, some 0, "x", false, .dir none none none⟩,
              ⟨0, some 0, "y", false, .dir none none none⟩,
              ⟨0, some 1, "a", false, .dirLink "/l/b" none [] none⟩,
              ⟨0, some 1, "b", false, .dirLink "/y" none [] none⟩],
    fss := [⟨"/", true, false, some 0⟩] }

/-- Scenario C: `/l/a` targets `/l/b` and `/l/b` targets `/l/a`. -/
def wC : World :=
  { nodes := [⟨0, none, "", false, .dir (some [1, 2, 3]) none none⟩,
              ⟨0, some 0, "l", false, .dir (some [4, 5]) none none⟩,
              ⟨0, some 0, "x", false, .dir none none none⟩,
              ⟨0, some 0, "y", false, .dir none none none⟩,
              ⟨0, some 1, "a", false, .dirLink "/l/b" none [] none⟩,
              ⟨0, some 1, "b", false, .dirLink "/l/a" none [] none⟩],
    fss := [⟨"/", true, false, some 0⟩] }

lemma buildC1 : (fsAddDirectory 20 0 "/l" none).run wA0 = some (.ok (some 1), wC1) := rfl
lemma buildC2 : (fsAddDirectory 20 0 "/x" none).run wC1 = some (.ok (some 2), wC2) := rfl
lemma buildC3 : (fsAddDirectory 20 0 "/y" none).run wC2 = some (.ok (some 3), wC3) := rfl
lemma buildC4 : (fsAddSymlink 20 0 "/l/a" (.entry 2)).run wC3 = some (.ok (some 4), wC4) := rfl
lemma buildC5 : (fsAddSymlink 20 0 "/l/b" (.entry 3)).run wC4 = some (.ok (some 5), wC5) := rfl
lemma buildC6 : (setTargetAt 4 "/l/b").run wC5 = some (.ok (), wC6) := rfl
lemma buildC7 : (setTargetAt 5 "/l/a").run wC6 = some (.ok (), wC) := rfl

/-- Claim C3 (confirmed).  In `wC` (built by `buildC1`–`buildC7`) the
directory symlink `/l/a` (node 4) targets the path of `/l/b` (node 5) and
vice versa.  `findTarget` — which tracks visited symlink nodes by identity —
returns no entry instead of looping, for every fuel at least 18, i.e. the
resolution stabilizes at `none` rather than running out of steps; `isBroken`
is true for both symlinks, again for all sufficiently large fuel; and no run
changes the world. -/
theorem C3_symlink_cycle_terminates :
    (∀ k : Nat, (findTarget (k + 18) 0 "/l/b" []).run wC = some (none, wC)) ∧
    (∀ k : Nat, (findTarget (k + 18) 0 "/l/a" []).run wC = some (none, wC)) ∧
    (∀ k : Nat, (isBrokenAt (k + 18) 4).run wC = some (true, wC)) ∧
    (∀ k : Nat, (isBrokenAt (k + 18) 5).run wC = some (true, wC)) :=
  ⟨fun _ => rfl, fun _ => rfl, fun _ => rfl, fun _ => rfl⟩

/-!
Scenario D: a resolved directory symlink `/s -> /t0` mirroring its target.
Branch D1 materializes the mirrored listing before mutating the target;
branch D2 mutates the target while the listing is still unmaterialized.
-/

def wD1 : World :=
  { nodes := [⟨0, none, "", false, .dir (some [1]) none none⟩,
              ⟨0, some 0, "t0", false, .dir none none none⟩],
    fss := [⟨"/", true, false, some 0⟩] }

def wD2 : World :=
  { nodes := [⟨0, none, "", false, .dir (some [1]) none none⟩,
              ⟨0, some 0, "t0", false, .dir (some [2]) none none⟩,
              ⟨0, some 1, "f0.txt", false, .file (some "f0") none none⟩],
    fss := [⟨"/", true, false, some 0⟩] }

def wD3 : World :=
  { nodes := [⟨0, none, "", false, .dir (some [1, 3]) none none⟩,
              ⟨0, some 0, "t0", false, .dir (some [2]) none none⟩,
              ⟨0, some 1, "f0.txt", false, .file (some "f0") none none⟩,
              ⟨0, some 0, "/s", false, .dirLink "/t0" none [] none⟩],
    fss := [⟨"/", true, false, some 0⟩] }

/-- Scenario D shared prefix complete: `/s` (node 3) has resolved to `/t0`
(node 1) but has not yet materialized its mirrored listing. -/
def wD5 : World :=
  { nodes := [⟨0, none, "", false, .dir (some [1, 3]) none none⟩,
              ⟨0, some 0, "t0", false, .dir (some [2]) none none⟩,
              ⟨0, some 1, "f0.txt", false, .file (some "f0") none none⟩,
              ⟨0, some 0, "/s", false, .dirLink "/t0" (some 1) [] none⟩],
    fss := [⟨"/", true, false, some 0⟩] }

/-- Branch D1: `wD5` after listing `/s`, which wraps the target child
`f0.txt` (node 2) as the file symlink node 4 and caches the memo pair. -/
def wD1L : World :=
  { nodes := [⟨0, none, "", false, .dir (some [1, 3]) none none⟩,
              ⟨0, some 0, "t0", false, .dir (some [2]) none none⟩,
              ⟨0, some 1, "f0.txt", false, .file (some "f0") none none⟩,
              ⟨0, some 0, "/s", false, .dirLink "/t0" (some 1) [(2, 4)] (some [4])⟩,
              ⟨0, some 3, "f0.txt", false, .fileLink "/t0/f0.txt"⟩],
    fss := [⟨"/", true, false, some 0⟩] }

/-- Branch D1: `wD1L` after adding `/t0/g.txt` (node 5); the child-added
event appends exactly one mirrored wrapper (node 6) to the listing of `/s`. -/
def wD1g : World :=
  { nodes := [⟨0, none, "", false, .dir (some [1, 3]) none none⟩,
              ⟨0, some 0, "t0", false, .dir (some [2, 5]) none none⟩,
              ⟨0, some 1, "f0.txt", false, .file (some "f0") none none⟩,
              ⟨0, some 0, "/s", false,
                .dirLink "/t0" (some 1) [(2, 4), (5, 6)] (some [4, 6])⟩,
              ⟨0, some 3, "f0.txt", false, .fileLink "/t0/f0.txt"⟩,
              ⟨0, some 1, "g.txt", false, .file (some "g") none none⟩,
              ⟨0, some 3, "g.txt", false, .fileLink "/t0/g.txt"⟩],
    fss := [⟨"/", true, false, some 0⟩] }

/-- Branch D1: `wD1g` after removing `/t0/g.txt`; the child-removed event
drops the mirrored wrapper from the listing of `/s`. -/
def wD1r : World :=
  { nodes := [⟨0, none, "", false, .dir (some [1, 3]) none none⟩,
              ⟨0, some 0, "t0", false, .dir (some [2]) none none⟩,
              ⟨0, some 1, "f0.txt", false, .file (some "f0") none none⟩,
              ⟨0, some 0, "/s", false, .dirLink "/t0" (some 1) [(2, 4)] (some [4])⟩,
              ⟨0, some 3, "f0.txt", false, .fileLink "/t0/f0.txt"⟩,
              ⟨0, some 1, "g.txt", false, .file (some "g") none none⟩,
              ⟨0, some 3, "g.txt", false, .fileLink "/t0/g.txt"⟩],
    fss := [⟨"/", true, false, some 0⟩] }

/-- Branch D2: `wD1` after adding a symlink `/s -> /t0` while `/t0` is
still empty. -/
def wDm2 : World :=
  { nodes := [⟨0, none, "", false, .dir (some [1, 2]) none none⟩,
              ⟨0, some 0, "t0", false, .dir none none none⟩,
              ⟨0, some 0, "/s", false, .dirLink "/t0" none [] none⟩],
    fss := [⟨"/", true, false, some 0⟩] }

/-- Branch D2 pre-state: the symlink `/s` (node 2) has resolved to the
still-empty `/t0` (node 1) and has not materialized its mirrored listing. -/
def wDm : World :=
  { nodes := [⟨0, none, "", false, .dir (some [1, 2]) none none⟩,
              ⟨0, some 0, "t0", false, .dir none none none⟩,
              ⟨0, some 0, "/s", false, .dirLink "/t0" (some 1) [] none⟩],
    fss := [⟨"/", true, false, some 0⟩] }

/-- Branch D2 post-state: `wDm` after adding `g.txt` (node 3) to `/t0`.
The child-added handler first materializes the mirrored listing of `/s` —
which already contains the new child, wrapped as node 4 — and then appends
the wrapper of the new child once more, so the cached listing is `[4, 4]`. -/
def wDmG : World :=
  { nodes := [⟨0, none, "", false, .dir (some [1, 2]) none none⟩,
              ⟨0, some 0, "t0", false, .dir (some [3]) none none⟩,
              ⟨0, some 0, "/s", false, .dirLink "/t0" (some 1) [(3, 4)] (some [4, 4])⟩,
              ⟨0, some 1, "g.txt", false, .file (some "g") none none⟩,
              ⟨0, some 2, "g.txt", false, .fileLink "/t0/g.txt"⟩],
    fss := [⟨"/", true, false, some 0⟩] }

lemma buildD1 : (fsAddDirectory 20 0 "/t0" none).run wA0 = some (.ok (some 1), wD1) := rfl
lemma buildD2 :
    (fsAddFile 20 0 "/t0/f0.txt" (some (.str "f0"))).run wD1 = some (.ok (some 2), wD2) := rfl
lemma buildD3 : (fsAddSymlink 20 0 "/s" (.entry 1)).run wD2 = some (.ok (some 3), wD3) := rfl
lemma buildD5 : (resolveTarget 20 3).run wD3 = some ((), wD5) := rfl
lemma buildD1L : (containerGetEntries 20 3).run wD5 = some ([4], wD1L) := rfl
lemma buildDm2 : (fsAddSymlink 20 0 "/s" (.entry 1)).run wD1 = some (.ok (some 2), wDm2) := rfl
lemma buildDm : (resolveTarget 20 2).run wDm2 = some ((), wDm) := rfl

set_option maxHeartbeats 1600000 in
/-- Claim C4, counterexample.  In `wDm` (reachable by `buildD1`, `buildDm2`,
`buildDm`: `/s` has resolved to `/t0` but has not yet listed it), adding
`g.txt` to the target directory `/t0` (node 1) makes the listing of `/s`
contain the mirrored `g.txt` entry twice: the child-added handler
materializes the listing — which already includes the new child — and then
appends the new child's wrapper once more.  So the listing of `/s` does
contain duplicate mirrored entries for the same target child, refuting the
claim's final sentence. -/
theorem C4_counterexample :
    (addFileAt 20 1 "g.txt" (some (.str "g"))).run wDm = some (.ok (some 3), wDmG) ∧
    (listNamesAt 20 2).run wDmG = some (["g.txt", "g.txt"], wDmG) ∧
    ¬ (["g.txt", "g.txt"] : List String).Nodup :=
  ⟨rfl, rfl, by decide⟩

/-- Claim C4, amended.  If the mirrored listing of the resolved directory
symlink `/s` (node 3) has already been materialized (`wD1L`, reachable by
`buildD1`–`buildD1L`), mirroring is live and duplicate-free: adding
`/t0/g.txt` to the target directory appends exactly one correspondingly
named file-symlink wrapper, the names of the listing are
`["f0.txt", "g.txt"]` with no duplicates, the symlink's resolved target
field is untouched (no re-resolution), the per-child wrapper memo returns
the same wrapper node 6 without changing the world, and removing
`/t0/g.txt` from the target removes the mirrored entry again.  (If the
listing is first materialized by the child-added event itself, a duplicate
appears instead.) -/
theorem C4_live_mirroring :
    (fsAddFile 20 0 "/t0/g.txt" (some (.str "g"))).run wD1L = some (.ok (some 5), wD1g) ∧
    (listNamesAt 20 3).run wD1g = some (["f0.txt", "g.txt"], wD1g) ∧
    (["f0.txt", "g.txt"] : List String).Nodup ∧
    (wD1g.nodes.get? 3).map (fun n => n.data.targetNode) = some (some 1) ∧
    (wD1g.nodes.get? 6).map (fun n => n.data) = some (.fileLink "/t0/g.txt") ∧
    (getWrappedEntryM 3 5).run wD1g = some (6, wD1g) ∧
    (fsRemoveFile 20 0 "/t0/g.txt").run wD1g = some (.ok true, wD1r) ∧
    (listNamesAt 20 3).run wD1r = some (["f0.txt"], wD1r) :=
  ⟨rfl, rfl, by decide, rfl, rfl, rfl, rfl, rfl⟩

/-!
Scenario E: `addFile` on a fresh path, then `getFile`, parametrized by the
content string.
-/

/-- Scenario E: the world after `addFile("/a.ts", c)` on an empty
filesystem — the file is node 1 with content `c`. -/
def wE (c : String) : World :=
  { nodes := [⟨0, none, "", false, .dir (some [1]) none none⟩,
              ⟨0, some 0, "a.ts", false, .file (some c) none none⟩],
    fss := [⟨"/", true, false, some 0⟩] }

lemma buildE : (fsAddFile 20 0 "/a.ts" (some (.str "x"))).run wA0
    = some (.ok (some 1), wE "x") := rfl

/-- Claim C5, counterexample.  On the mutable filesystem `wE "x"`
(reachable by `buildE`: `addFile("/a.ts", "x")` on the empty filesystem),
calling `addFile("/a.ts", "y")` finds the existing entry and returns it
unchanged without storing `"y"`, and the immediately following `getFile`
returns a file whose `getContent()` is still `"x"`, not the `"y"` just
passed to `addFile`.  So the claim fails when the path already names a
file. -/
theorem C5_counterexample :
    (fsAddFile 20 0 "/a.ts" (some (.str "y"))).run (wE "x")
      = some (.ok (some 1), wE "x") ∧
    (fsGetFile 20 0 "/a.ts").run (wE "x") = some (some 1, wE "x") ∧
    (getContentAt 20 1).run (wE "x") = some (some "x", wE "x") ∧
    (some "x" : Option String) ≠ some "y" :=
  ⟨rfl, rfl, rfl, by decide⟩

set_option maxHeartbeats 1600000 in
/-- Claim C5, amended.  For every content string `c`: on a mutable
filesystem where the path does not yet name an entry (here the empty
filesystem `wA0`), `addFile("/a.ts", c)` creates the file (node 1), the
immediately following `getFile` returns that file, and its `getContent()`
is exactly `c`.  If the path already names a file, `addFile` instead
returns the existing file with its old content (see the counterexample). -/
theorem C5_addFile_getFile_roundtrip :
    ∀ c : String,
      (fsAddFile 20 0 "/a.ts" (some (.str c))).run wA0 = some (.ok (some 1), wE c) ∧
      (fsGetFile 20 0 "/a.ts").run (wE c) = some (some 1, wE c) ∧
      (getContentAt 20 1).run (wE c) = some (some c, wE c) :=
  fun _ => ⟨rfl, rfl, rfl⟩

/-!
Scenario F: a mutable file backed by a content resolver, and the
shadow-backed clone file of scenario B.
-/

/-- Scenario F: `/rf.txt` (node 1) has no content yet, only a pending
content resolver. -/
def wF0 : World :=
  { nodes := [⟨0, none, "", false, .dir (some [1]) none none⟩,
              ⟨0, some 0, "rf.txt", false,
                .file none (some resR.contentForPath) none⟩],
    fss := [⟨"/", true, false, some 0⟩] }

/-- Scenario F: the world after `setContent(v)` on `/rf.txt` — the value is
stored and the resolver is discarded. -/
def wF (v : Option String) : World :=
  { nodes := [⟨0, none, "", false, .dir (some [1]) none none⟩,
              ⟨0, some 0, "rf.txt", false, .file v none none⟩],
    fss := [⟨"/", true, false, some 0⟩] }

lemma buildF0 : (fsAddFile 20 0 "/rf.txt" (some (.fn resR.contentForPath))).run wA0
    = some (.ok (some 1), wF0) := rfl

/-- `wB5` after `getContent()` on the clone's shadow-backed `a.txt`
(node 5): the shadow's content is copied in and the shadow reference is
dropped. -/
def wB5G : World :=
  { nodes := [⟨0, none, "", false, .dir (some [1, 2]) none none⟩,
              ⟨0, some 0, "a.txt", false, .file (some "orig") none none⟩,
              ⟨0, some 0, "sub", false, .dir (some [3]) none none⟩,
              ⟨0, some 2, "b.txt", false, .file (some "bb") none none⟩,
              ⟨1, none, "", false, .dir (some [5, 6]) none none⟩,
              ⟨1, some 4, "a.txt", false, .file (some "orig") none none⟩,
              ⟨1, some 4, "sub", false, .dir none none (some 2)⟩],
    fss := [⟨"/", true, false, some 0⟩, ⟨"/", true, false, some 4⟩] }

/-- Claim C7, counterexample.  The clone's `a.txt` (node 5 of `wB5`,
reachable by `buildB1`–`buildB5`) is mutable, has no content of its own and
shadows the original file.  `setContent(undefined)` — an explicit clear —
succeeds, but it does not discard the shadow reference, so the subsequent
`getContent()` consults the shadow source and returns the original's
content `"orig"` instead of the absent value just set. -/
theorem C7_counterexample :
    (setContentAt 20 5 none).run wB5 = some (.ok (), wB5) ∧
    (getContentAt 20 5).run wB5 = some (some "orig", wB5G) ∧
    (some "orig" : Option String) ≠ none :=
  ⟨rfl, rfl, by decide⟩

/-- Claim C7, amended.  On the mutable resolver-backed file `/rf.txt`
(node 1 of `wF0`, reachable by `buildF0`): for every value `v`,
`setContent(v)` stores `v` and discards the pending resolver (the file's
state becomes exactly content `v` with no resolver and no shadow), and the
subsequent `getContent()` returns exactly `v` — both for a present string
and for the absent value — without consulting the discarded resolver.  The
guarantee holds because this file has no shadow source; a shadow-backed
file whose content is cleared falls back to its shadow instead (see the
counterexample). -/
theorem C7_setContent_discards_resolver :
    (∀ v : Option String,
      (setContentAt 20 1 v).run wF0 = some (.ok (), wF v) ∧
      ((wF v).nodes.get? 1).map (fun n => n.data) = some (.file v none none)) ∧
    (∀ c : String,
      (getContentAt 20 1).run (wF (some c)) = some (some c, wF (some c))) ∧
    (getContentAt 20 1).run (wF none) = some (none, wF none) :=
  ⟨fun _ => ⟨rfl, rfl⟩, fun _ => rfl, rfl⟩

/-!
Scenario I: individually frozen symlinks over mutable targets.  `/fsl` is a
read-only file symlink to the mutable `/t.txt`; `/dsl` is a read-only
directory symlink to the mutable `/m`.
-/

def wI1 : World :=
  { nodes := [⟨0, none, "", false, .dir (some [1]) none none⟩,
              ⟨0, some 0, "t.txt", false, .file (some "tv") none none⟩],
    fss := [⟨"/", true, false, some 0⟩] }

def wI2 : World :=
  { nodes := [⟨0, none, "", false, .dir (some [1, 2]) none none⟩,
              ⟨0, some 0, "t.txt", false, .file (some "tv") none none⟩,
              ⟨0, some 0, "/fsl", false, .fileLink "/t.txt"⟩],
    fss := [⟨"/", true, false, some 0⟩] }

def wI3 : World :=
  { nodes := [⟨0, none, "", false, .dir (some [1, 2, 3]) none none⟩,
              ⟨0, some 0, "t.txt", false, .file (some "tv") none none⟩,
              ⟨0, some 0, "/fsl", false, .fileLink "/t.txt"⟩,
              ⟨0, some 0, "m", false, .dir none none none⟩],
    fss := [⟨"/", true, false, some 0⟩] }

def wI4 : World :=
  { nodes := [⟨0, none, "", false, .dir (some [1, 2, 3, 4]) none none⟩,
              ⟨0, some 0, "t.txt", false, .file (some "tv") none none⟩,
              ⟨0, some 0, "/fsl", false, .fileLink "/t.txt"⟩,
              ⟨0, some 0, "m", false, .dir none none none⟩,
              ⟨0, some 0, "/dsl", false, .dirLink "/m" none [] none⟩],
    fss := [⟨"/", true, false, some 0⟩] }

def wI5 : World :=
  { nodes := [⟨0, none, "", false, .dir (some [1, 2, 3, 4]) none none⟩,
              ⟨0, some 0, "t.txt", false, .file (some "tv") none none⟩,
              ⟨0, some 0, "/fsl", true, .fileLink "/t.txt"⟩,
              ⟨0, some 0, "m", false, .dir none none none⟩,
              ⟨0, some 0, "/dsl", false, .dirLink "/m" none [] none⟩],
    fss := [⟨"/", true, false, some 0⟩] }

/-- Scenario I base: the symlinks `/fsl` (node 2) and `/dsl` (node 4) are
read-only, their targets `/t.txt` (node 1) and `/m` (node 3) are not. -/
def wI : World :=
  { nodes := [⟨0, none, "", false, .dir (some [1, 2, 3, 4]) none none⟩,
              ⟨0, some 0, "t.txt", false, .file (some "tv") none none⟩,
              ⟨0, some 0, "/fsl", true, .fileLink "/t.txt"⟩,
              ⟨0, some 0, "m", false, .dir none none none⟩,
              ⟨0, some 0, "/dsl", true, .dirLink "/m" none [] none⟩],
    fss := [⟨"/", true, false, some 0⟩] }

/-- Scenario I after `setContent(v)` through the frozen `/fsl`: the mutable
target file holds `v`. -/
def wIc (v : Option String) : World :=
  { nodes := [⟨0, none, "", false, .dir (some [1, 2, 3, 4]) none none⟩,
              ⟨0, some 0, "t.txt", false, .file v none none⟩,
              ⟨0, some 0, "/fsl", true, .fileLink "/t.txt"⟩,
              ⟨0, some 0, "m", false, .dir none none none⟩,
              ⟨0, some 0, "/dsl", true, .dirLink "/m" none [] none⟩],
    fss := [⟨"/", true, false, some 0⟩] }

/-- Scenario I after `addFile("g.txt")` through the frozen `/dsl`: the
target directory `/m` gains the file (node 5) and the symlink resolves and
mirrors it. -/
def wIg : World :=
  { nodes := [⟨0, none, "", false, .dir (some [1, 2, 3, 4]) none none⟩,
              ⟨0, some 0, "t.txt", false, .file (some "tv") none none⟩,
              ⟨0, some 0, "/fsl", true, .fileLink "/t.txt"⟩,
              ⟨0, some 0, "m", false, .dir (some [5]) none none⟩,
              ⟨0, some 0, "/dsl", true, .dirLink "/m" (some 3) [(5, 6)] (some [6, 6])⟩,
              ⟨0, some 3, "g.txt", false, .file (some "g") none none⟩,
              ⟨0, some 4, "g.txt", false, .fileLink "/m/g.txt"⟩],
    fss := [⟨"/", true, false, some 0⟩] }

/-- Scenario I after `removeFile("g.txt")` through the frozen `/dsl`: the
target directory `/m` is empty again. -/
def wIr : World :=
  { nodes := [⟨0, none, "", false, .dir (some [1, 2, 3, 4]) none none⟩,
              ⟨0, some 0, "t.txt", false, .file (some "tv") none none⟩,
              ⟨0, some 0, "/fsl", true, .fileLink "/t.txt"⟩,
              ⟨0, some 0, "m", false, .dir (some []) none none⟩,
              ⟨0, some 0, "/dsl", true, .dirLink "/m" (some 3) [] (some [6])⟩,
              ⟨0, some 3, "g.txt", false, .file (some "g") none none⟩,
              ⟨0, some 4, "g.txt", false, .fileLink "/m/g.txt"⟩],
    fss := [⟨"/", true, false, some 0⟩] }

lemma buildI1 : (fsAddFile 20 0 "/t.txt" (some (.str "tv"))).run wA0
    = some (.ok (some 1), wI1) := rfl
lemma buildI2 : (fsAddSymlink 20 0 "/fsl" (.entry 1)).run wI1 = some (.ok (some 2), wI2) := rfl
lemma buildI3 : (fsAddDirectory 20 0 "/m" none).run wI2 = some (.ok (some 3), wI3) := rfl
lemma buildI4 : (fsAddSymlink 20 0 "/dsl" (.entry 3)).run wI3 = some (.ok (some 4), wI4) := rfl
lemma buildI5 : (makeReadOnly 20 2).run wI4 = some ((), wI5) := rfl
lemma buildI : (makeReadOnly 20 4).run wI5 = some ((), wI) := rfl

/-- Scenario I base with `/dsl` resolved to its target `/m`. -/
def wIR : World :=
  { nodes := [⟨0, none, "", false, .dir (some [1, 2, 3, 4]) none none⟩,
              ⟨0, some 0, "t.txt", false, .file (some "tv") none none⟩,
              ⟨0, some 0, "/fsl", true, .fileLink "/t.txt"⟩,
              ⟨0, some 0, "m", false, .dir none none none⟩,
              ⟨0, some 0, "/dsl", true, .dirLink "/m" (some 3) [] none⟩],
    fss := [⟨"/", true, false, some 0⟩] }

lemma buildIR : (resolveTarget 20 4).run wI = some ((), wIR) := rfl

set_option maxHeartbeats 1600000 in
/-- Claim C10 (confirmed).  In `wI` (reachable by `buildI1`–`buildI`) the
symlinks are read-only while their targets are mutable.  Mutation through a
symlink is not guarded by the symlink's own read-only flag: for every value
`v`, `setContent(v)` through the frozen file symlink succeeds and stores
`v` in the mutable target file; `addFile` through the frozen directory
symlink (pre-resolved in `wIR`, reachable by `buildIR`) and `removeFile`
through it succeed and mutate the mutable target directory.  Only
reassigning a symlink's own target path is guarded by its own flag:
`setTarget` raises `ImmutableViolation` on both frozen symlinks, leaving
the world unchanged. -/
theorem C10_symlink_freeze_not_inherited :
    nodeReadOnly wI 2 = some true ∧ nodeReadOnly wI 4 = some true ∧
    nodeReadOnly wI 1 = some false ∧ nodeReadOnly wI 3 = some false ∧
    (∀ v : Option String,
      (setContentAt 20 2 v).run wI = some (.ok (), wIc v) ∧
      ((wIc v).nodes.get? 1).map (fun n => n.data) = some (.file v none none)) ∧
    (setTargetAt 2 "zz").run wI = some (.error .immutableViolation, wI) ∧
    (addFileAt 20 4 "g.txt" (some (.str "g"))).run wIR = some (.ok (some 5), wIg) ∧
    (wIg.nodes.get? 3).map (fun n => n.data) = some (.dir (some [5]) none none) ∧
    (setTargetAt 4 "zz").run wI = some (.error .immutableViolation, wI) ∧
    (removeFileAt 20 4 "g.txt").run wIg = some (.ok true, wIr) ∧
    (wIr.nodes.get? 3).map (fun n => n.data) = some (.dir (some []) none none) :=
  ⟨rfl, rfl, rfl, rfl, fun _ => ⟨rfl, rfl⟩, rfl, rfl, rfl, rfl, rfl, rfl⟩

/-!
Scenario B9: a frozen original `/a.txt` and its clone.
-/

/-- Scenario B9, the frozen original. -/
def wB9f : World :=
  { nodes := [⟨0, none, "", true, .dir (some [1]) none none⟩,
              ⟨0, some 0, "a.txt", true, .file (some "orig") none none⟩],
    fss := [⟨"/", true, true, some 0⟩] }

/-- Scenario B9 after cloning the frozen filesystem. -/
def wB9c : World :=
  { nodes := [⟨0, none, "", true, .dir (some [1]) none none⟩,
              ⟨0, some 0, "a.txt", true, .file (some "orig") none none⟩,
              ⟨1, none, "", false, .dir none none (some 0)⟩],
    fss := [⟨"/", true, true, some 0⟩, ⟨"/", true, false, some 2⟩] }

/-- Scenario B9 after adding `/c.txt` (content `c`) to the clone. -/
def wB9add (c : String) : World :=
  { nodes := [⟨0, none, "", true, .dir (some [1]) none none⟩,
              ⟨0, some 0, "a.txt", true, .file (some "orig") none none⟩,
              ⟨1, none, "", false, .dir (some [3, 4]) none none⟩,
              ⟨1, some 2, "a.txt", false, .file none none (some 1)⟩,
              ⟨1, some 2, "c.txt", false, .file (some c) none none⟩],
    fss := [⟨"/", true, true, some 0⟩, ⟨"/", true, false, some 2⟩] }

lemma buildB9f : (fsMakeReadOnly 20 0).run wB1 = some ((), wB9f) := rfl
lemma buildB9c : (fsClone 20 0).run wB9f = some (1, wB9c) := rfl

/-- Claim C9 (confirmed on a representative frozen filesystem).  Cloning the
frozen filesystem `wB9f` (`buildB1`, `buildB9f`) yields filesystem 1 whose
`isReadOnly` is false and whose cloned root (node 2) is unfrozen; adding a
file with arbitrary content `c` succeeds (the shadow children materialize
unfrozen), the cloned `a.txt` (node 3) is unfrozen and accepts `setContent`,
while the original filesystem and its entries stay frozen. -/
theorem C9_clone_of_frozen_is_mutable :
    fsIsReadOnly wB9c 0 = some true ∧
    fsIsReadOnly wB9c 1 = some false ∧
    nodeReadOnly wB9c 2 = some false ∧
    (∀ c : String,
      (fsAddFile 20 1 "/c.txt" (some (.str c))).run wB9c = some (.ok (some 4), wB9add c)) ∧
    (∀ c : String, (fsGetFile 20 1 "/a.txt").run (wB9add c) = some (some 3, wB9add c)) ∧
    (∀ c : String, nodeReadOnly (wB9add c) 3 = some false ∧
      nodeReadOnly (wB9add c) 4 = some false ∧
      nodeReadOnly (wB9add c) 0 = some true ∧ nodeReadOnly (wB9add c) 1 = some true) ∧
    (∀ (c u : String), (setContentAt 20 3 (some u)).run (wB9add c) =
      some (.ok (), setNode (wB9add c) 3 ⟨1, some 2, "a.txt", false, .file (some u) none (some 1)⟩)) :=
  ⟨rfl, rfl, rfl, fun _ => rfl, fun _ => rfl, fun _ => ⟨rfl, rfl, rfl, rfl⟩,
    fun _ _ => rfl⟩

/-!
Scenario G: a directory lazily populated from an arbitrary backing
resolver, for the general resolver round-trip claim.
-/

/-- A backing resolver reporting fixed file and directory name lists and an
arbitrary content function. -/
def mkRes (files dirs : List String) (cf : String → Option String) : FileSystemResolver :=
  ⟨fun _ => (files, dirs), cf⟩

/-- Scenario G: `/r` (node 1) is an unpopulated resolver-backed directory. -/
def wRg (r : FileSystemResolver) : World :=
  { nodes := [⟨0, none, "", false, .dir (some [1]) none none⟩,
              ⟨0, some 0, "r", false, .dir none (some r) none⟩],
    fss := [⟨"/", true, false, some 0⟩] }

lemma buildRg : ∀ r, (fsAddDirectory 20 0 "/r" (some r)).run wA0 = some (.ok (some 1), wRg r) :=
  fun _ => rfl

/-- The shape of scenario G mid-population: the root, the directory being
populated (own list `es`, resolver already discarded), and the `extra`
nodes created so far. -/
def wPop (es : List NodeId) (extra : List Node) : World :=
  { nodes := ⟨0, none, "", false, .dir (some [1]) none none⟩ ::
             ⟨0, some 0, "r", false, .dir (some es) none none⟩ :: extra,
    fss := [⟨"/", true, false, some 0⟩] }

/-- A child directory created during resolver population: it carries the
resolver itself for its own later population. -/
def dirChild (r : FileSystemResolver) (d : String) : Node :=
  ⟨0, some 1, d, false, .dir none (some r) none⟩

/-- A child file created during resolver population: it carries the
resolver content callback. -/
def fileChild (r : FileSystemResolver) (s : String) : Node :=
  ⟨0, some 1, s, false, .file none (some r.contentForPath) none⟩

/-- Running the directory half of resolver population appends one child
directory node per reported name, in order, and records the new node ids in
the own list. -/
lemma populateDirs_run (r : FileSystemResolver) :
    ∀ (ds : List String) (k : Nat) (es : List NodeId) (extra : List Node),
      (populateResolverDirs (k + ds.length + 1) 1 0 false r ds).run (wPop es extra)
        = some ((), wPop (es ++ List.range' (extra.length + 2) ds.length)
                         (extra ++ ds.map (dirChild r)))
  | [], k, es, extra => by
      show some ((), wPop es extra) = _
      simp
  | d :: rest, k, es, extra => by
      have step : (populateResolverDirs (k + (d :: rest).length + 1) 1 0 false r (d :: rest)).run
            (wPop es extra)
          = (populateResolverDirs (k + rest.length + 1) 1 0 false r rest).run
            (wPop (es ++ [extra.length + 2]) (extra ++ [dirChild r d])) := rfl
      rw [step, populateDirs_run r rest k (es ++ [extra.length + 2]) (extra ++ [dirChild r d])]
      simp [wPop, List.range'_succ, List.append_assoc]

/-- Running the file half of resolver population appends one child file
node per reported name, in order, and records the new node ids in the own
list. -/
lemma populateFiles_run (r : FileSystemResolver) :
    ∀ (fs : List String) (k : Nat) (es : List NodeId) (extra : List Node),
      (populateResolverFiles (k + fs.length + 1) 1 0 false r fs).run (wPop es extra)
        = some ((), wPop (es ++ List.range' (extra.length + 2) fs.length)
                         (extra ++ fs.map (fileChild r)))
  | [], k, es, extra => by
      show some ((), wPop es extra) = _
      simp
  | s :: rest, k, es, extra => by
      have step : (populateResolverFiles (k + (s :: rest).length + 1) 1 0 false r (s :: rest)).run
            (wPop es extra)
          = (populateResolverFiles (k + rest.length + 1) 1 0 false r rest).run
            (wPop (es ++ [extra.length + 2]) (extra ++ [fileChild r s])) := rfl
      rw [step, populateFiles_run r rest k (es ++ [extra.length + 2]) (extra ++ [fileChild r s])]
      simp [wPop, List.range'_succ, List.append_assoc]

/-- The node ids created by a full resolver population (directories first,
then files, exactly as the source pushes them). -/
def popIds (dirs files : List String) : List NodeId :=
  List.range' 2 (dirs.length + files.length)

/-- Scenario G fully populated. -/
def wPopR (r : FileSystemResolver) (dirs files : List String) : World :=
  wPop (popIds dirs files) (dirs.map (dirChild r) ++ files.map (fileChild r))

lemma ownList_wPop (es : List NodeId) (extra : List Node) :
    (ownList 1).run (wPop es extra) = some (es, wPop es extra) := rfl

lemma range'_glue (s m n : Nat) :
    List.range' s m ++ List.range' (m + s) n = List.range' s (m + n) := by
  induction m generalizing s with
  | zero => simp
  | succ m ih =>
      rw [List.range'_succ, show m + 1 + s = m + (s + 1) by omega, List.cons_append, ih (s + 1),
        show m + 1 + n = m + n + 1 by omega, List.range'_succ]

/-- `getOwnEntries` on the unpopulated resolver directory performs the full
population: it discards the resolver, creates one node per reported
directory then file name, and returns their ids. -/
lemma getOwnEntries_resolver (files dirs : List String) (cf : String → Option String) (k : Nat) :
    (getOwnEntries (k + dirs.length + files.length + 2) 1).run (wRg (mkRes files dirs cf))
      = some (popIds dirs files, wPopR (mkRes files dirs cf) dirs files) := by
  have step : (getOwnEntries (k + dirs.length + files.length + 2) 1).run (wRg (mkRes files dirs cf))
      = ((populateResolverDirs (k + dirs.length + files.length + 1) 1 0 false
            (mkRes files dirs cf) dirs) >>= fun _ =>
         (populateResolverFiles (k + dirs.length + files.length + 1) 1 0 false
            (mkRes files dirs cf) files) >>= fun _ =>
         ownList 1).run (wPop [] []) := rfl
  rw [step]
  simp only [StateT.run_bind]
  rw [show k + dirs.length + files.length + 1 = k + files.length + dirs.length + 1 by omega,
    populateDirs_run (mkRes files dirs cf) dirs (k + files.length) [] []]
  simp only [Option.bind_eq_bind, Option.some_bind, List.nil_append, List.length_nil,
    Nat.zero_add]
  rw [show k + files.length + dirs.length + 1 = k + dirs.length + files.length + 1 by omega,
    populateFiles_run (mkRes files dirs cf) files (k + dirs.length) (List.range' 2 dirs.length)
      (List.map (dirChild (mkRes files dirs cf)) dirs)]
  simp only [Option.bind_eq_bind, Option.some_bind, List.length_map, ownList_wPop]
  rw [range'_glue 2 dirs.length files.length]
  rfl

/-- A second `getOwnEntries` on an already-populated directory returns the
cached ids and performs no further work. -/
lemma getOwnEntries_cached (k : Nat) (es : List NodeId) (extra : List Node) :
    (getOwnEntries (k + 1) 1).run (wPop es extra) = some (es, wPop es extra) := rfl

lemma isMatch_default (n : Node) : isMatch n {} = true := by
  simp [isMatch]

/-- The optionless `getEntries` filter keeps every populated id. -/
lemma filter_popIds (r : FileSystemResolver) (dirs files : List String) :
    (popIds dirs files).filter (fun e =>
      match (wPopR r dirs files).nodes.get? e with
      | some n => isMatch n {}
      | none => false) = popIds dirs files := by
  apply List.filter_eq_self.mpr
  intro e he
  have hb := List.mem_range'_1.mp (by simpa [popIds] using he)
  have hlen : e < (wPopR r dirs files).nodes.length := by
    simp [wPopR, wPop]
    omega
  rw [List.get?_eq_get hlen]
  simp [isMatch_default]

/-- The names of consecutively indexed nodes appended after a prefix are the
nodes' names in order. -/
lemma namesOf_append (fss : List FsState) :
    ∀ (extra pre : List Node),
      namesOf ⟨pre ++ extra, fss⟩ (List.range' pre.length extra.length) = extra.map Node.name
  | [], pre => by simp [namesOf]
  | c :: rest, pre => by
      have ih := namesOf_append fss rest (pre ++ [c])
      simp only [namesOf, List.append_assoc, List.singleton_append, List.length_append,
        List.length_singleton, List.length_cons, List.length_nil, Nat.zero_add] at ih ⊢
      rw [List.range'_succ]
      have hhead : (pre ++ c :: rest).get? pre.length = some c := by
        rw [List.get?_append_right (Nat.le_refl _)]
        simp
      simp only [List.filterMap_cons, hhead]
      exact congrArg (List.cons c.name) ih

/-- The names of the populated entries are exactly the reported directory
names followed by the reported file names. -/
lemma namesOf_wPopR (r : FileSystemResolver) (dirs files : List String) :
    namesOf (wPopR r dirs files) (popIds dirs files) = dirs ++ files := by
  have h := namesOf_append [⟨"/", true, false, some 0⟩]
      (dirs.map (dirChild r) ++ files.map (fileChild r))
      [⟨0, none, "", false, .dir (some [1]) none none⟩,
       ⟨0, some 0, "r", false, .dir (some (popIds dirs files)) none none⟩]
  rw [show popIds dirs files
      = List.range' 2 ((dirs.map (dirChild r) ++ files.map (fileChild r)).length) by
    simp [popIds]]
  refine Eq.trans h ?_
  simp [dirChild, fileChild, Function.comp_def]

/-- Claim C6 (confirmed).  For every resolver report — arbitrary file name
list, directory name list and content callback — `getEntries()` on the
lazily backed directory `/r` of `wRg` (reachable by `buildRg`) populates it
exactly once: it returns one entry per reported name, directories first,
whose names are exactly `dirs ++ files`; the listing has no duplicates
whenever the reported names had none; a second `getEntries()` returns the
same node ids (the same object identities) with the world unchanged,
consulting the resolver no further; and after population the directory
holds no resolver reference.  The `k` quantifier shows the result is stable
for every sufficient fuel. -/
theorem C6_resolver_population :
    ∀ (files dirs : List String) (cf : String → Option String) (k : Nat),
      (containerGetEntries (k + dirs.length + files.length + 3) 1).run (wRg (mkRes files dirs cf))
        = some (popIds dirs files, wPopR (mkRes files dirs cf) dirs files) ∧
      namesOf (wPopR (mkRes files dirs cf) dirs files) (popIds dirs files) = dirs ++ files ∧
      ((dirs ++ files).Nodup →
        (namesOf (wPopR (mkRes files dirs cf) dirs files) (popIds dirs files)).Nodup) ∧
      (containerGetEntries (k + 2) 1).run (wPopR (mkRes files dirs cf) dirs files)
        = some (popIds dirs files, wPopR (mkRes files dirs cf) dirs files) ∧
      ((wPopR (mkRes files dirs cf) dirs files).nodes.get? 1).map (fun n => n.data)
        = some (.dir (some (popIds dirs files)) none none) := by
  intro files dirs cf k
  refine ⟨?_, namesOf_wPopR _ dirs files, ?_, ?_, rfl⟩
  · have step : (containerGetEntries (k + dirs.length + files.length + 3) 1).run
          (wRg (mkRes files dirs cf))
        = ((getOwnEntries (k + dirs.length + files.length + 2) 1) >>= fun es =>
           get >>= fun w =>
           pure (es.filter (fun e =>
             match w.nodes.get? e with
             | some n => isMatch n {}
             | none => false))).run (wRg (mkRes files dirs cf)) := rfl
    rw [step]
    simp only [StateT.run_bind]
    rw [getOwnEntries_resolver files dirs cf k]
    simp only [Option.bind_eq_bind, Option.some_bind, StateT.run_get, StateT.run_pure,
      Option.pure_def]
    rw [filter_popIds]
  · intro h
    rw [namesOf_wPopR]
    exact h
  · have hc : (containerGetEntries (k + 2) 1).run (wPopR (mkRes files dirs cf) dirs files)
        = some ((popIds dirs files).filter (fun e =>
             match (wPopR (mkRes files dirs cf) dirs files).nodes.get? e with
             | some n => isMatch n {}
             | none => false), wPopR (mkRes files dirs cf) dirs files) := rfl
    rw [hc, filter_popIds]

/-- Witness for claim C6 at a concrete resolver report: one directory
`sub` and one file `a.txt`, whose names are distinct, so the populated
listing is duplicate-free. -/
theorem C6_resolver_population_witness :
    (["sub"] ++ ["a.txt"] : List String).Nodup ∧
    (namesOf (wPopR (mkRes ["a.txt"] ["sub"] (fun _ => none)) ["sub"] ["a.txt"])
      (popIds ["sub"] ["a.txt"])).Nodup :=
  ⟨by decide, (C6_resolver_population ["a.txt"] ["sub"] (fun _ => none) 0).2.2.1 (by decide)⟩

end Vfs

